import Mathlib

/-!
Verification of the session-merge and submission-upload subsystems
(`merge_sessions.py`, `submit.py`) of this repository, via a shallow
embedding of their data model and operations in Lean.

Conventions of the embedding:
* JSON event timestamps are modelled by their parsed value (`Nat`).
  `timestamp = none` models an event whose `timestamp` field is absent;
  a present but unparsable timestamp is modelled as `some 0`, since
  `parse_timestamp` maps both the empty and any unparsable string to the
  minimum sentinel (`datetime.min`).
* Nondeterministic inputs of the scripts (the generated merge uuid, the
  current time, the outcome of one remote transfer) are passed in as
  parameters.
* Fallible code paths are modelled with `Option`/`Except`.
-/

namespace MergeSessions

/-- One parsed JSON line of a consolidated session log.  `body` stands for
the rest of the payload (it distinguishes otherwise-equal events). -/
structure Event where
  type : String
  timestamp : Option Nat
  session_id : Option String
  body : String
deriving DecidableEq, Repr

/-- Function `parse_timestamp` (merge_sessions.py:21-30): a missing or unparsable
timestamp parses to the minimum sentinel. -/
def parse_timestamp : Option Nat → Nat
  | none => 0
  | some t => t

/-- The `data` dictionary built by `extract_session_data`
(merge_sessions.py:86-110). -/
structure SessionData where
  session_start : Option Event
  session_end : Option Event
  session_summary : Option Event
  messages : List Event
  other_events : List Event
deriving DecidableEq, Repr

def emptySessionData : SessionData :=
  { session_start := none, session_end := none, session_summary := none,
    messages := [], other_events := [] }

/-- Function `extract_session_data` (merge_sessions.py:86-110): buckets events by
type; for the three boundary records a later event overwrites an earlier
one, messages keep their order. -/
def extract_session_data (events : List Event) : SessionData :=
  events.foldl
    (fun d e =>
      if e.type = "session_start" then { d with session_start := some e }
      else if e.type = "session_end" then { d with session_end := some e }
      else if e.type = "session_summary" then { d with session_summary := some e }
      else if e.type = "user" ∨ e.type = "assistant" ∨ e.type = "assistant_thinking" then
        { d with messages := d.messages ++ [e] }
      else { d with other_events := d.other_events ++ [e] })
    emptySessionData

/-- One consolidated session file: `sid` is taken from the file name
`session_{sid}.jsonl`, `events` are its parsed lines. -/
structure SessionFile where
  sid : String
  events : List Event
deriving DecidableEq, Repr

/-- Helper `get_start_time` inside `find_session_files` (merge_sessions.py:45-54):
the parsed timestamp of the first `session_start` event, minimum sentinel
when there is none. -/
def get_start_time (f : SessionFile) : Nat :=
  match f.events.find? (fun e => e.type == "session_start") with
  | some e => parse_timestamp e.timestamp
  | none => 0

/-- Comparison used to sort session files by start time. -/
def fileLe (a b : SessionFile) : Prop := get_start_time a ≤ get_start_time b

instance : DecidableRel fileLe := fun _ _ => Nat.decLe _ _

instance : IsTotal SessionFile fileLe := ⟨fun _ _ => Nat.le_total _ _⟩

instance : IsTrans SessionFile fileLe := ⟨fun _ _ _ h h' => Nat.le_trans h h'⟩

/-- Function `find_session_files` (merge_sessions.py:33-66), restricted to the
processed files: sort by `session_start` timestamp.  Python's `list.sort`
is stable; a stable insertion sort computes the same list. -/
def find_session_files (files : List SessionFile) : List SessionFile :=
  List.insertionSort fileLe files

/-- A message of the merged output: a copy of the original event with
`session_id` set to the merged id and `original_session_id` recording the
copied message's own `session_id` field (merge_sessions.py:283-288). -/
structure OutMsg where
  type : String
  timestamp : Option Nat
  session_id : String
  original_session_id : String
  body : String
deriving DecidableEq, Repr

/-- The per-message rewrite performed while collecting messages
(merge_sessions.py:284-288). -/
def rekey (mergedSid : String) (m : Event) : OutMsg :=
  { type := m.type
    timestamp := m.timestamp
    session_id := mergedSid
    original_session_id := m.session_id.getD "unknown"
    body := m.body }

/-- Sort key of a merged message (merge_sessions.py:290). -/
def msgKey (m : OutMsg) : Nat := parse_timestamp m.timestamp

/-- Comparison used to sort merged messages by parsed timestamp. -/
def msgLe (a b : OutMsg) : Prop := msgKey a ≤ msgKey b

instance : DecidableRel msgLe := fun _ _ => Nat.decLe _ _

instance : IsTotal OutMsg msgLe := ⟨fun _ _ => Nat.le_total _ _⟩

instance : IsTrans OutMsg msgLe := ⟨fun _ _ _ h h' => Nat.le_trans h h'⟩

/-- Collection of all messages across the (already sorted) input files, in
file order, messages of one file kept in file order
(merge_sessions.py:281-288). -/
def collect_messages (sorted_files : List SessionFile) (mergedSid : String) : List OutMsg :=
  (sorted_files.map (fun f => (extract_session_data f.events).messages.map (rekey mergedSid))).flatten

/-- The sort `all_messages.sort(key=...)` (merge_sessions.py:290): Python's stable
sort, computed by a stable insertion sort. -/
def sort_messages (l : List OutMsg) : List OutMsg :=
  List.insertionSort msgLe l

/-- The claim-relevant fields of the merged session written by
`merge_sessions` (merge_sessions.py:262-352): the synthesized start/end
timestamps, the new session id and the sorted message list. -/
structure MergedOutput where
  session_id : String
  start_timestamp : Nat
  messages : List OutMsg
  end_timestamp : Nat
deriving DecidableEq, Repr

/-- Function `merge_sessions` (merge_sessions.py:215-352).  `mergedSid` stands for
the generated uuid, `now` for `datetime.now()`.  Returns `none` when fewer
than two processed files are found (merge_sessions.py:223-227). -/
def merge_sessions (files : List SessionFile) (mergedSid : String) (now : Nat) :
    Option MergedOutput :=
  let processed := find_session_files files
  if processed.length < 2 then none
  else
    let all_session_data := processed.map (fun f => extract_session_data f.events)
    let first_start := all_session_data.head?.bind (fun sd => sd.session_start)
    let last_end := all_session_data.getLast?.bind (fun sd => sd.session_end)
    some
      { session_id := mergedSid
        start_timestamp := (first_start.bind (fun e => e.timestamp)).getD now
        messages := sort_messages (collect_messages processed mergedSid)
        end_timestamp := (last_end.bind (fun e => e.timestamp)).getD now }

/-- The parsed timestamps of all `session_end` events present among the
input files (used to state what "the latest end timestamp" would be). -/
def end_timestamps (files : List SessionFile) : List Nat :=
  files.filterMap (fun f => (extract_session_data f.events).session_end.bind (fun e => e.timestamp))

/-- Maximum of a list of naturals, as the scripts compute it: a fold of
`max` starting from `0`. -/
def list_max (l : List Nat) : Nat := l.foldl max 0

end MergeSessions

namespace MergeSessions

/-- The `summary_data.user_metrics` dict of one input summary (all fields optional;
`sd.get(..., 0)` reads an absent field as `0`). -/
structure UserMetrics where
  user_prompts : Option Nat
  tool_results : Option Nat
  system_messages : Option Nat
  total_user_events : Option Nat
deriving DecidableEq, Repr

def emptyUserMetrics : UserMetrics := ⟨none, none, none, none⟩

/-- The `summary_data.usage_totals` dict of one input summary. -/
structure UsageTotals where
  total_input_tokens : Option Nat
  total_output_tokens : Option Nat
  total_cache_creation_tokens : Option Nat
  total_cache_read_tokens : Option Nat
  total_ephemeral_5m_tokens : Option Nat
  total_ephemeral_1h_tokens : Option Nat
  service_tier : Option String
  total_actual_input_tokens : Option Nat
deriving DecidableEq, Repr

def emptyUsageTotals : UsageTotals := ⟨none, none, none, none, none, none, none, none⟩

/-- The `summary_data.tool_metrics` dict of one input summary.  The keyed
`tool_calls_by_type` dict is an association list; an absent dict is the
empty list (`tm.get('tool_calls_by_type', {})`). -/
structure ToolMetrics where
  tool_calls_by_type : List (String × Nat)
  total_tool_calls : Option Nat
  total_tool_results : Option Nat
deriving DecidableEq, Repr

def emptyToolMetrics : ToolMetrics := ⟨[], none, none⟩

/-- The `summary_data.thinking_metrics` dict of one input summary. -/
structure ThinkingMetrics where
  thinking_enabled_turns : Option Nat
  thinking_disabled_turns : Option Nat
  assistant_with_thinking_blocks : Option Nat
  thinking_levels : List (String × Nat)
  assistant_thinking_blocks_captured : Option Nat
deriving DecidableEq, Repr

def emptyThinkingMetrics : ThinkingMetrics := ⟨none, none, none, [], none⟩

/-- The `summary_data.git_metrics` dict of one input summary. -/
structure GitMetrics where
  files_changed_count : Option Nat
  lines_of_code_changed_count : Option Nat
deriving DecidableEq, Repr

def emptyGitMetrics : GitMetrics := ⟨none, none⟩

/-- The `summary_data` payload of one `session_summary` event. -/
structure SummaryData where
  total_duration_seconds : Option Nat
  total_messages : Option Nat
  assistant_messages : Option Nat
  user_prompts : Option Nat
  user_metrics : Option UserMetrics
  usage_totals : Option UsageTotals
  tool_metrics : Option ToolMetrics
  thinking_metrics : Option ThinkingMetrics
  git_metrics : Option GitMetrics
deriving DecidableEq, Repr

def emptySummaryData : SummaryData :=
  ⟨none, none, none, none, none, none, none, none, none⟩

/-- One `session_summary` event as consumed by `aggregate_summaries`
(only its `summary_data` field is read, `summary.get('summary_data', {})`). -/
structure Summary where
  summary_data : Option SummaryData
deriving DecidableEq, Repr

/-- Accessors mirroring the `sd = summary.get('summary_data', {})` and
nested `sd.get(..., {})` reads. -/
def sdOf (s : Summary) : SummaryData := s.summary_data.getD emptySummaryData

def umOf (s : Summary) : UserMetrics := (sdOf s).user_metrics.getD emptyUserMetrics

def utOf (s : Summary) : UsageTotals := (sdOf s).usage_totals.getD emptyUsageTotals

def tmOf (s : Summary) : ToolMetrics := (sdOf s).tool_metrics.getD emptyToolMetrics

def thmOf (s : Summary) : ThinkingMetrics := (sdOf s).thinking_metrics.getD emptyThinkingMetrics

def gmOf (s : Summary) : GitMetrics := (sdOf s).git_metrics.getD emptyGitMetrics

/-- The running `totals['user_metrics']` dict. -/
structure TotalsUM where
  user_prompts : Nat
  tool_results : Nat
  system_messages : Nat
  total_user_events : Nat

/-- The running `totals['usage_totals']` dict. -/
structure TotalsUT where
  total_input_tokens : Nat
  total_output_tokens : Nat
  total_cache_creation_tokens : Nat
  total_cache_read_tokens : Nat
  total_ephemeral_5m_tokens : Nat
  total_ephemeral_1h_tokens : Nat
  service_tier : Option String
  total_actual_input_tokens : Nat

/-- The running `totals['tool_metrics']` dict; the defaultdict is a total
function on keys, zero outside its support. -/
structure TotalsTM where
  tool_calls_by_type : String → Nat
  total_tool_calls : Nat
  total_tool_results : Nat

/-- The running `totals['thinking_metrics']` dict. -/
structure TotalsTHM where
  thinking_enabled_turns : Nat
  thinking_disabled_turns : Nat
  assistant_with_thinking_blocks : Nat
  thinking_levels : String → Nat
  assistant_thinking_blocks_captured : Nat

/-- The running `totals['git_metrics']` dict. -/
structure TotalsGM where
  files_changed_count : Nat
  lines_of_code_changed_count : Nat

/-- The `totals` accumulator of `aggregate_summaries`
(merge_sessions.py:115-152). -/
structure Totals where
  total_duration_seconds : Nat
  total_messages : Nat
  assistant_messages : Nat
  user_prompts : Nat
  user_metrics : TotalsUM
  usage_totals : TotalsUT
  tool_metrics : TotalsTM
  thinking_metrics : TotalsTHM
  git_metrics : TotalsGM

/-- The initial `totals` value (merge_sessions.py:115-152). -/
def initTotals : Totals :=
  { total_duration_seconds := 0
    total_messages := 0
    assistant_messages := 0
    user_prompts := 0
    user_metrics := ⟨0, 0, 0, 0⟩
    usage_totals := ⟨0, 0, 0, 0, 0, 0, none, 0⟩
    tool_metrics := ⟨fun _ => 0, 0, 0⟩
    thinking_metrics := ⟨0, 0, 0, fun _ => 0, 0⟩
    git_metrics := ⟨0, 0⟩ }

/-- The loop `for tool_name, count in ...: totals[...][tool_name] += count` over one
input dict (merge_sessions.py:183-184 and 194-195). -/
def add_entries (g : String → Nat) (entries : List (String × Nat)) : String → Nat :=
  entries.foldl (fun g p => fun j => if j = p.1 then g j + p.2 else g j) g

/-- One iteration of the `for summary in summaries` loop of
`aggregate_summaries` (merge_sessions.py:154-206). -/
def aggregate_step (t : Totals) (summary : Summary) : Totals :=
  let sd := summary.summary_data.getD emptySummaryData
  let um := sd.user_metrics.getD emptyUserMetrics
  let ut := sd.usage_totals.getD emptyUsageTotals
  let tm := sd.tool_metrics.getD emptyToolMetrics
  let thm := sd.thinking_metrics.getD emptyThinkingMetrics
  let gm := sd.git_metrics.getD emptyGitMetrics
  { total_duration_seconds := t.total_duration_seconds + sd.total_duration_seconds.getD 0
    total_messages := t.total_messages + sd.total_messages.getD 0
    assistant_messages := t.assistant_messages + sd.assistant_messages.getD 0
    user_prompts := t.user_prompts + sd.user_prompts.getD 0
    user_metrics :=
      { user_prompts := t.user_metrics.user_prompts + um.user_prompts.getD 0
        tool_results := t.user_metrics.tool_results + um.tool_results.getD 0
        system_messages := t.user_metrics.system_messages + um.system_messages.getD 0
        total_user_events := t.user_metrics.total_user_events + um.total_user_events.getD 0 }
    usage_totals :=
      { total_input_tokens := t.usage_totals.total_input_tokens + ut.total_input_tokens.getD 0
        total_output_tokens := t.usage_totals.total_output_tokens + ut.total_output_tokens.getD 0
        total_cache_creation_tokens :=
          t.usage_totals.total_cache_creation_tokens + ut.total_cache_creation_tokens.getD 0
        total_cache_read_tokens :=
          t.usage_totals.total_cache_read_tokens + ut.total_cache_read_tokens.getD 0
        total_ephemeral_5m_tokens :=
          t.usage_totals.total_ephemeral_5m_tokens + ut.total_ephemeral_5m_tokens.getD 0
        total_ephemeral_1h_tokens :=
          t.usage_totals.total_ephemeral_1h_tokens + ut.total_ephemeral_1h_tokens.getD 0
        service_tier :=
          match ut.service_tier with
          | some s => if s ≠ "" then some s else t.usage_totals.service_tier
          | none => t.usage_totals.service_tier
        total_actual_input_tokens :=
          t.usage_totals.total_actual_input_tokens + ut.total_actual_input_tokens.getD 0 }
    tool_metrics :=
      { tool_calls_by_type := add_entries t.tool_metrics.tool_calls_by_type tm.tool_calls_by_type
        total_tool_calls := t.tool_metrics.total_tool_calls + tm.total_tool_calls.getD 0
        total_tool_results := t.tool_metrics.total_tool_results + tm.total_tool_results.getD 0 }
    thinking_metrics :=
      { thinking_enabled_turns :=
          t.thinking_metrics.thinking_enabled_turns + thm.thinking_enabled_turns.getD 0
        thinking_disabled_turns :=
          t.thinking_metrics.thinking_disabled_turns + thm.thinking_disabled_turns.getD 0
        assistant_with_thinking_blocks :=
          t.thinking_metrics.assistant_with_thinking_blocks + thm.assistant_with_thinking_blocks.getD 0
        thinking_levels := add_entries t.thinking_metrics.thinking_levels thm.thinking_levels
        assistant_thinking_blocks_captured :=
          t.thinking_metrics.assistant_thinking_blocks_captured +
            thm.assistant_thinking_blocks_captured.getD 0 }
    git_metrics :=
      { files_changed_count :=
          max t.git_metrics.files_changed_count (gm.files_changed_count.getD 0)
        lines_of_code_changed_count :=
          max t.git_metrics.lines_of_code_changed_count (gm.lines_of_code_changed_count.getD 0) } }

/-- Function `aggregate_summaries` (merge_sessions.py:113-212). -/
def aggregate_summaries (summaries : List Summary) : Totals :=
  summaries.foldl aggregate_step initTotals

end MergeSessions

namespace Submit

/-- A JSON value of the manifest document (only the shapes the script
touches are modelled). -/
inductive JVal where
  | num (n : Nat)
  | str (s : String)
deriving DecidableEq, Repr

/-- The manifest JSON object: an association list preserving insertion
order, as a Python dict does. -/
def Manifest := List (String × JVal)

instance : DecidableEq Manifest := fun a b => List.hasDecEq a b

instance : Repr Manifest := inferInstanceAs (Repr (List (String × JVal)))

/-- Read `manifest.get(key)`. -/
def manifest_get (m : Manifest) (k : String) : Option JVal :=
  List.lookup k m

/-- Assignment `manifest[key] = v` on a Python dict: replace in place when the key
exists, append otherwise. -/
def dict_set : Manifest → String → JVal → Manifest
  | [], k, v => [(k, v)]
  | (k', v') :: rest, k, v =>
      if k' = k then (k, v) :: rest else (k', v') :: dict_set rest k v

/-- Function `update_manifest_version` (submit.py:367-381): the read-modify-write of
the manifest, which sets `last_submission_version` and leaves everything
else alone. -/
def update_manifest_version (manifest : Manifest) (new_version : Nat) : Manifest :=
  dict_set manifest "last_submission_version" (JVal.num new_version)

/-- Function `get_upload_path_from_version` (submit.py:360-365). -/
def get_upload_path_from_version (sprint_folder task_id : String) (version : Nat) : String :=
  if version = 0 then sprint_folder ++ "/" ++ task_id
  else sprint_folder ++ "/" ++ task_id ++ "_v" ++ toString version

/-- The starting attempt version computed in `main` (submit.py:694-703):
`0` when the manifest records no `last_submission_version`, recorded
version plus one otherwise.  A non-numeric recorded value would raise a
`TypeError` in Python and is modelled as `none`. -/
def starting_version (manifest : Manifest) : Option Nat :=
  match manifest_get manifest "last_submission_version" with
  | none => some 0
  | some (JVal.num last_version) => some (last_version + 1)
  | some (JVal.str _) => none

/-- The final outcome of `upload_file_to_supabase` for one file
(submit.py:425-527): success, or failure classified by error code.
`err403`/`err409` are the codes fed to the version-retry logic;
`errOther` covers network exhaustion and every other error. -/
inductive UploadResult where
  | ok
  | err403
  | err409
  | errOther
deriving DecidableEq, Repr

def is_ok : UploadResult → Bool
  | .ok => true
  | _ => false

/-- Membership of the returned error code in `["403", "409"]`
(submit.py:567). -/
def is_conflict_code : UploadResult → Bool
  | .err403 => true
  | .err409 => true
  | _ => false

/-- The `(success, had_conflict_errors, uploaded_count)` triple returned by
`upload_experiment_data` (submit.py:529-580). -/
structure AttemptOutcome where
  success : Bool
  had_conflict_errors : Bool
  uploaded_count : Nat
deriving DecidableEq, Repr

/-- Function `upload_experiment_data` (submit.py:529-580).  `res f` is the final
outcome of the transfer of file `f` in this attempt (the worker pool joins
on all tasks; the aggregate counters are order-independent, so the
completion order of `as_completed` does not matter). -/
def upload_experiment_data (res : String → UploadResult) (upload_files : List String) :
    AttemptOutcome :=
  let uploaded_count := (upload_files.filter (fun f => is_ok (res f))).length
  let failed_files := upload_files.filter (fun f => ¬ is_ok (res f))
  let had_conflict_errors := failed_files.any (fun f => is_conflict_code (res f))
  { success := failed_files.isEmpty
    had_conflict_errors := had_conflict_errors
    uploaded_count := uploaded_count }

/-- What the upload retry loop of `main` (submit.py:734-785) produces:
overall success, the final upload path, the version persisted by the last
`update_manifest_version` call (`final_version`), the updated manifest,
the list of versions written to the manifest along the way and, for
specification purposes, the log of the attempts that were executed. -/
structure SubmitResult where
  upload_successful : Bool
  final_upload_path : Option String
  final_version : Option Nat
  manifest : Manifest
  writes : List Nat
  attempt_log : List (Nat × AttemptOutcome)
deriving DecidableEq, Repr

/-- Constant `max_attempts` of the upload retry loop (submit.py:735). -/
def max_attempts : Nat := 5

/-- The `for attempt in range(max_attempts)` loop of `main`
(submit.py:740-780).  `fuel` is the number of loop iterations still
allowed, so the Python guard `attempt < max_attempts - 1` is `0 < fuel`
for the iterations remaining after the current one.  `res v f` is the
outcome of uploading file `f` while attempting version `v`.  The file
list is rebuilt between attempts from the same directory tree
(submit.py:773) and therefore modelled as constant. -/
def run_attempts (res : Nat → String → UploadResult) (upload_files : List String)
    (sprint_folder task_id : String) :
    Nat → Nat → Manifest → Option Nat → List Nat → List (Nat × AttemptOutcome) → SubmitResult
  | 0, _, manifest, fv, ws, log =>
      { upload_successful := false, final_upload_path := none, final_version := fv,
        manifest := manifest, writes := ws, attempt_log := log }
  | fuel + 1, version, manifest, fv, ws, log =>
      let o := upload_experiment_data (res version) upload_files
      let manifest' := if 0 < o.uploaded_count then update_manifest_version manifest version
                       else manifest
      let fv' := if 0 < o.uploaded_count then some version else fv
      let ws' := if 0 < o.uploaded_count then ws ++ [version] else ws
      let log' := log ++ [(version, o)]
      if o.success then
        { upload_successful := true
          final_upload_path := some (get_upload_path_from_version sprint_folder task_id version)
          final_version := fv', manifest := manifest', writes := ws', attempt_log := log' }
      else if o.had_conflict_errors ∧ 0 < fuel then
        run_attempts res upload_files sprint_folder task_id fuel (version + 1) manifest' fv' ws' log'
      else
        { upload_successful := false, final_upload_path := none, final_version := fv',
          manifest := manifest', writes := ws', attempt_log := log' }

/-- The upload phase of `main` (submit.py:694-785): compute the starting
version from the manifest, then run the bounded attempt loop. -/
def submit_main (res : Nat → String → UploadResult) (upload_files : List String)
    (sprint_folder task_id : String) (manifest : Manifest) : Option SubmitResult :=
  (starting_version manifest).map (fun attempt_version =>
    run_attempts res upload_files sprint_folder task_id max_attempts attempt_version
      manifest none [] [])

end Submit

namespace Submit

/-- The slice of the local file system read by `validate_experiment_files`
(submit.py:195-334): which paths exist as files, which as directories, and
the file names matched by the globs `logs/model_a/session_*.jsonl` and
`logs/model_b/session_*.jsonl` (an empty list when the globbed directory
does not exist, as in Python). -/
structure FS where
  files : List String
  dirs : List String
  model_a_logs : List String
  model_b_logs : List String
deriving DecidableEq, Repr

def FS.is_file (fs : FS) (p : String) : Bool := fs.files.contains p

def FS.is_dir (fs : FS) (p : String) : Bool := fs.dirs.contains p

def FS.path_exists (fs : FS) (p : String) : Bool := fs.files.contains p || fs.dirs.contains p

/-- How `validate_experiment_files` terminates with an error: `fatal m`
models a `print_error` call with a single message `m` (which exits the
process immediately), `missing_items l` models the aggregated
`print_error` listing every item of `l` (submit.py:327-331). -/
inductive VError where
  | fatal (msg : String)
  | missing_items (items : List String)
deriving DecidableEq, Repr

/-- List `required_files` (submit.py:205-209). -/
def required_files : List String :=
  ["manifest.json", "model_a/.claude/settings.local.json", "model_b/.claude/settings.local.json"]

/-- List `required_dirs` (submit.py:211-216). -/
def required_dirs : List String :=
  ["model_a", "model_b", "logs", "snapshots"]

/-- Function `validate_experiment_files` (submit.py:195-334).  Checks that only
print warnings (missing raw session files, missing `session_summary`
events, missing snapshot archives) are not modelled; every `print_error`
path is. -/
def validate_experiment_files (fs : FS) : Except VError Unit :=
  if ¬ fs.is_file "manifest.json" then
    Except.error (VError.fatal "manifest.json not found in current directory")
  else if ¬ fs.is_dir "snapshots" then
    Except.error (VError.fatal "snapshots folder not found in current directory")
  else
    let missing_files := required_files.filter (fun p => ¬ fs.is_file p)
    let missing_dirs := required_dirs.filter (fun p => ¬ fs.is_dir p)
    let logs_check : Except VError Unit :=
      if fs.path_exists "logs" then
        let model_a_mandatory := fs.model_a_logs.filter (fun n => ¬ n.endsWith "_raw.jsonl")
        let model_b_mandatory := fs.model_b_logs.filter (fun n => ¬ n.endsWith "_raw.jsonl")
        if model_a_mandatory.length = 0 then
          Except.error (VError.fatal
            "No mandatory session log file found in logs/model_a/ (expected session_*.jsonl)")
        else if 1 < model_a_mandatory.length then
          Except.error (VError.fatal
            ("Found " ++ toString model_a_mandatory.length ++
              " mandatory session files in logs/model_a/, expected exactly 1"))
        else if model_b_mandatory.length = 0 then
          Except.error (VError.fatal
            "No mandatory session log file found in logs/model_b/ (expected session_*.jsonl)")
        else if 1 < model_b_mandatory.length then
          Except.error (VError.fatal
            ("Found " ++ toString model_b_mandatory.length ++
              " mandatory session files in logs/model_b/, expected exactly 1"))
        else Except.ok ()
      else Except.ok ()
    match logs_check with
    | Except.error e => Except.error e
    | Except.ok () =>
        let all_missing := missing_files ++ missing_dirs
        if all_missing.isEmpty then Except.ok ()
        else Except.error (VError.missing_items all_missing)

end Submit

namespace Submit

lemma lookup_dict_set_self (m : Manifest) (k : String) (v : JVal) :
    List.lookup k (dict_set m k v) = some v := by
  induction m with
  | nil => simp [dict_set, List.lookup]
  | cons p rest ih =>
      rcases p with ⟨k', v'⟩
      by_cases h : k' = k
      · simp [dict_set, h, List.lookup]
      · simp only [dict_set, if_neg h, List.lookup]
        have : (k == k') = false := by
          simpa [beq_eq_false_iff_ne] using fun hk => h hk.symm
        simp [this, ih]

lemma lookup_dict_set_ne (m : Manifest) (k k' : String) (v : JVal) (h : k' ≠ k) :
    List.lookup k' (dict_set m k v) = List.lookup k' m := by
  have hfalse : (k' == k) = false := beq_eq_false_iff_ne.mpr h
  induction m with
  | nil => simp [dict_set, List.lookup, hfalse]
  | cons p rest ih =>
      rcases p with ⟨a, b⟩
      by_cases ha : a = k
      · subst ha
        simp [dict_set, List.lookup, hfalse]
      · simp only [dict_set, if_neg ha, List.lookup]
        cases hk : (k' == a) <;> simp [ih]

lemma dict_set_idem (m : Manifest) (k : String) (v : JVal) :
    dict_set (dict_set m k v) k v = dict_set m k v := by
  induction m with
  | nil => simp [dict_set]
  | cons p rest ih =>
      rcases p with ⟨a, b⟩
      by_cases ha : a = k
      · simp [dict_set, ha]
      · simp [dict_set, ha, ih]

end Submit

/-- C10: `update_manifest_version` changes only the manifest's
`last_submission_version` field — every other key reads the same
afterwards — and applying it twice with the same version yields the same
manifest as applying it once. -/
theorem c10_update_manifest_frame_idempotent (m : Submit.Manifest) (v : Nat) :
    (∀ k : String, k ≠ "last_submission_version" →
        Submit.manifest_get (Submit.update_manifest_version m v) k = Submit.manifest_get m k) ∧
    Submit.update_manifest_version (Submit.update_manifest_version m v) v =
      Submit.update_manifest_version m v := by
  constructor
  · intro k hk
    exact Submit.lookup_dict_set_ne m "last_submission_version" k _ hk
  · exact Submit.dict_set_idem m "last_submission_version" _

/-- Witness for C10 at a concrete manifest: the `expert_name` entry is
untouched by the version update, and the update is idempotent. -/
theorem c10_update_manifest_frame_idempotent_witness :
    ("expert_name" ≠ "last_submission_version") ∧
    Submit.manifest_get
        (Submit.update_manifest_version
          [("expert_name", Submit.JVal.str "e"), ("last_submission_version", Submit.JVal.num 0)] 4)
        "expert_name" =
      Submit.manifest_get
        [("expert_name", Submit.JVal.str "e"), ("last_submission_version", Submit.JVal.num 0)]
        "expert_name" ∧
    Submit.update_manifest_version
        (Submit.update_manifest_version
          [("expert_name", Submit.JVal.str "e"), ("last_submission_version", Submit.JVal.num 0)] 4) 4 =
      Submit.update_manifest_version
        [("expert_name", Submit.JVal.str "e"), ("last_submission_version", Submit.JVal.num 0)] 4 :=
  ⟨by decide,
   (c10_update_manifest_frame_idempotent
      [("expert_name", Submit.JVal.str "e"), ("last_submission_version", Submit.JVal.num 0)] 4).1
      "expert_name" (by decide),
   (c10_update_manifest_frame_idempotent
      [("expert_name", Submit.JVal.str "e"), ("last_submission_version", Submit.JVal.num 0)] 4).2⟩

/-- C8: the starting submission version is `0` when the manifest records no
`last_submission_version` and `lastVersion + 1` when it records one, and
the remote path is `folder/taskId` at version `0` and
`folder/taskId_v{version}` at version at least `1`. -/
theorem c8_next_version_and_path (m : Submit.Manifest) (folder task : String) (n v : Nat) :
    (Submit.manifest_get m "last_submission_version" = none →
        Submit.starting_version m = some 0) ∧
    (Submit.manifest_get m "last_submission_version" = some (Submit.JVal.num n) →
        Submit.starting_version m = some (n + 1)) ∧
    Submit.get_upload_path_from_version folder task 0 = folder ++ "/" ++ task ∧
    (1 ≤ v →
        Submit.get_upload_path_from_version folder task v =
          folder ++ "/" ++ task ++ "_v" ++ toString v) := by
  refine ⟨fun h => ?_, fun h => ?_, ?_, fun hv => ?_⟩
  · simp [Submit.starting_version, h]
  · simp [Submit.starting_version, h]
  · simp [Submit.get_upload_path_from_version]
  · have : v ≠ 0 := by omega
    simp [Submit.get_upload_path_from_version, this]

/-- Witness for C8: a manifest without the field starts at version `0`, a
manifest recording version `4` starts at `5`, and the concrete paths for
versions `0` and `1`. -/
theorem c8_next_version_and_path_witness :
    Submit.manifest_get [] "last_submission_version" = none ∧
    Submit.starting_version [] = some 0 ∧
    Submit.manifest_get [("last_submission_version", Submit.JVal.num 4)] "last_submission_version" =
      some (Submit.JVal.num 4) ∧
    Submit.starting_version [("last_submission_version", Submit.JVal.num 4)] = some 5 ∧
    Submit.get_upload_path_from_version "sprint" "task1" 0 = "sprint" ++ "/" ++ "task1" ∧
    (1 ≤ 1) ∧
    Submit.get_upload_path_from_version "sprint" "task1" 1 =
      "sprint" ++ "/" ++ "task1" ++ "_v" ++ toString 1 :=
  ⟨by decide,
   (c8_next_version_and_path [] "sprint" "task1" 4 1).1 (by decide),
   by decide,
   (c8_next_version_and_path [("last_submission_version", Submit.JVal.num 4)] "sprint" "task1" 4 1).2.1
     (by decide),
   (c8_next_version_and_path [] "sprint" "task1" 4 1).2.2.1,
   by decide,
   (c8_next_version_and_path [] "sprint" "task1" 4 1).2.2.2 (by decide)⟩

namespace Submit

/-- Unfolding of one iteration of the attempt loop. -/
lemma run_attempts_succ (res : Nat → String → UploadResult) (upload_files : List String)
    (sprint_folder task_id : String) (fuel version : Nat) (manifest : Manifest)
    (fv : Option Nat) (ws : List Nat) (log : List (Nat × AttemptOutcome)) :
    run_attempts res upload_files sprint_folder task_id (fuel + 1) version manifest fv ws log =
      (let o := upload_experiment_data (res version) upload_files
       let manifest' := if 0 < o.uploaded_count then update_manifest_version manifest version
                        else manifest
       let fv' := if 0 < o.uploaded_count then some version else fv
       let ws' := if 0 < o.uploaded_count then ws ++ [version] else ws
       let log' := log ++ [(version, o)]
       if o.success then
         { upload_successful := true
           final_upload_path := some (get_upload_path_from_version sprint_folder task_id version)
           final_version := fv', manifest := manifest', writes := ws', attempt_log := log' }
       else if o.had_conflict_errors ∧ 0 < fuel then
         run_attempts res upload_files sprint_folder task_id fuel (version + 1)
           manifest' fv' ws' log'
       else
         { upload_successful := false, final_upload_path := none, final_version := fv',
           manifest := manifest', writes := ws', attempt_log := log' }) := rfl

/-- Whatever is already in the attempt log stays in the final log. -/
lemma run_attempts_log_mono (res : Nat → String → UploadResult) (upload_files : List String)
    (sprint_folder task_id : String) :
    ∀ (fuel version : Nat) (manifest : Manifest) (fv : Option Nat) (ws : List Nat)
      (log : List (Nat × AttemptOutcome)) (p : Nat × AttemptOutcome), p ∈ log →
      p ∈ (run_attempts res upload_files sprint_folder task_id fuel version manifest fv ws
            log).attempt_log := by
  intro fuel
  induction fuel with
  | zero => intro version manifest fv ws log p hp; exact hp
  | succ fuel ih =>
      intro version manifest fv ws log p hp
      rw [run_attempts_succ]
      set o := upload_experiment_data (res version) upload_files with ho
      by_cases hs : o.success
      · simp only [hs, if_true]
        exact List.mem_append_left _ hp
      · simp only [hs, Bool.false_eq_true, if_false]
        by_cases hc : o.had_conflict_errors ∧ 0 < fuel
        · simp only [if_pos hc]
          exact ih _ _ _ _ _ p (List.mem_append_left _ hp)
        · simp only [if_neg hc]
          exact List.mem_append_left _ hp

/-- Every call with fuel left executes an attempt at its starting version
and records it in the attempt log. -/
lemma run_attempts_executes (res : Nat → String → UploadResult) (upload_files : List String)
    (sprint_folder task_id : String) (fuel version : Nat) (manifest : Manifest)
    (fv : Option Nat) (ws : List Nat) (log : List (Nat × AttemptOutcome)) :
    (version, upload_experiment_data (res version) upload_files) ∈
      (run_attempts res upload_files sprint_folder task_id (fuel + 1) version manifest fv ws
        log).attempt_log := by
  rw [run_attempts_succ]
  set o := upload_experiment_data (res version) upload_files with ho
  by_cases hs : o.success
  · simp only [hs, if_true]
    exact List.mem_append_right _ (List.mem_singleton_self _)
  · simp only [hs, Bool.false_eq_true, if_false]
    by_cases hc : o.had_conflict_errors ∧ 0 < fuel
    · simp only [if_pos hc]
      exact run_attempts_log_mono res upload_files sprint_folder task_id _ _ _ _ _ _ _
        (List.mem_append_right _ (List.mem_singleton_self _))
    · simp only [if_neg hc]
      exact List.mem_append_right _ (List.mem_singleton_self _)

end Submit

/-- C1 (counterexample): an upload batch whose single file fails with an
authorization error (HTTP 403) on the first attempt and succeeds on the
next is NOT treated as a terminal failure: the scheduler retries at the
incremented version and reports overall success, so a 403 failure does not
abort the submission and a new attempt is started even though the failure
was not a remote-path conflict (it is classified together with 409
conflicts, submit.py:567).  The attempt log shows the failed 403 attempt
at version 0 followed by the successful attempt at version 1. -/
theorem c1_counterexample :
    Submit.run_attempts
        (fun v _ => if v = 0 then Submit.UploadResult.err403 else Submit.UploadResult.ok)
        ["f"] "folder" "task" Submit.max_attempts 0 [] none [] [] =
      { upload_successful := true
        final_upload_path := some "folder/task_v1"
        final_version := some 1
        manifest := [("last_submission_version", Submit.JVal.num 1)]
        writes := [1]
        attempt_log :=
          [(0, { success := false, had_conflict_errors := true, uploaded_count := 0 }),
           (1, { success := true, had_conflict_errors := false, uploaded_count := 1 })] } := by
  decide

/-- C1 (amended): a failed attempt is terminal — overall failure, no
further attempt — exactly when none of its failures carried a 403/409
code; a failed attempt with a 403 (or 409) among its failures is treated
as a conflict and, while attempts remain, a new attempt at the incremented
version is executed. -/
theorem c1_amended_conflict_classification (res : Nat → String → Submit.UploadResult)
    (upload_files : List String) (sprint_folder task_id : String) (fuel version : Nat)
    (manifest : Submit.Manifest) (fv : Option Nat) (ws : List Nat)
    (log : List (Nat × Submit.AttemptOutcome)) :
    ((Submit.upload_experiment_data (res version) upload_files).success = false →
      (Submit.upload_experiment_data (res version) upload_files).had_conflict_errors = false →
        (Submit.run_attempts res upload_files sprint_folder task_id (fuel + 1) version manifest
            fv ws log).upload_successful = false ∧
        (Submit.run_attempts res upload_files sprint_folder task_id (fuel + 1) version manifest
            fv ws log).attempt_log =
          log ++ [(version, Submit.upload_experiment_data (res version) upload_files)]) ∧
    ((Submit.upload_experiment_data (res version) upload_files).success = false →
      (Submit.upload_experiment_data (res version) upload_files).had_conflict_errors = true →
      0 < fuel →
        (version + 1, Submit.upload_experiment_data (res (version + 1)) upload_files) ∈
          (Submit.run_attempts res upload_files sprint_folder task_id (fuel + 1) version manifest
            fv ws log).attempt_log) := by
  constructor
  · intro hs hc
    rw [Submit.run_attempts_succ]
    simp [hs, hc]
  · intro hs hc hfuel
    obtain ⟨fuel', rfl⟩ : ∃ fuel', fuel = fuel' + 1 := ⟨fuel - 1, by omega⟩
    rw [Submit.run_attempts_succ]
    simp only [hs, Bool.false_eq_true, if_false, hc, true_and, Nat.zero_lt_succ, if_true]
    exact Submit.run_attempts_executes res upload_files sprint_folder task_id fuel' (version + 1)
      _ _ _ _

/-- Witness for the amended C1: a batch whose file fails with a
non-conflict error stops immediately with overall failure, and a batch
whose file fails with a 403 gets a second attempt at version 1. -/
theorem c1_amended_conflict_classification_witness :
    ((Submit.upload_experiment_data
        ((fun _ _ => Submit.UploadResult.errOther) 0) ["f"]).success = false ∧
     (Submit.upload_experiment_data
        ((fun _ _ => Submit.UploadResult.errOther) 0) ["f"]).had_conflict_errors = false ∧
     (Submit.run_attempts (fun _ _ => Submit.UploadResult.errOther) ["f"] "folder" "task"
        (4 + 1) 0 [] none [] []).upload_successful = false ∧
     (Submit.run_attempts (fun _ _ => Submit.UploadResult.errOther) ["f"] "folder" "task"
        (4 + 1) 0 [] none [] []).attempt_log =
       [] ++ [(0, Submit.upload_experiment_data
                ((fun _ _ => Submit.UploadResult.errOther) 0) ["f"])]) ∧
    ((Submit.upload_experiment_data
        ((fun v _ => if v = 0 then Submit.UploadResult.err403 else Submit.UploadResult.ok) 0)
        ["f"]).success = false ∧
     (Submit.upload_experiment_data
        ((fun v _ => if v = 0 then Submit.UploadResult.err403 else Submit.UploadResult.ok) 0)
        ["f"]).had_conflict_errors = true ∧
     0 < 4 ∧
     (0 + 1, Submit.upload_experiment_data
        ((fun v _ => if v = 0 then Submit.UploadResult.err403 else Submit.UploadResult.ok) (0 + 1))
        ["f"]) ∈
       (Submit.run_attempts
          (fun v _ => if v = 0 then Submit.UploadResult.err403 else Submit.UploadResult.ok)
          ["f"] "folder" "task" (4 + 1) 0 [] none [] []).attempt_log) := by
  constructor
  · refine ⟨by decide, by decide, ?_, ?_⟩
    · exact ((c1_amended_conflict_classification (fun _ _ => Submit.UploadResult.errOther)
        ["f"] "folder" "task" 4 0 [] none [] []).1 (by decide) (by decide)).1
    · exact ((c1_amended_conflict_classification (fun _ _ => Submit.UploadResult.errOther)
        ["f"] "folder" "task" 4 0 [] none [] []).1 (by decide) (by decide)).2
  · refine ⟨by decide, by decide, by decide, ?_⟩
    exact (c1_amended_conflict_classification
        (fun v _ => if v = 0 then Submit.UploadResult.err403 else Submit.UploadResult.ok)
        ["f"] "folder" "task" 4 0 [] none [] []).2 (by decide) (by decide) (by decide)

namespace Submit

lemma upload_all_conflict (res : String → UploadResult) (files : List String)
    (hne : files ≠ []) (h : ∀ f ∈ files, res f = UploadResult.err409) :
    upload_experiment_data res files =
      { success := false, had_conflict_errors := true, uploaded_count := 0 } := by
  have hfailed : files.filter (fun f => ¬ is_ok (res f)) = files := by
    rw [List.filter_eq_self]
    intro f hf
    simp [h f hf, is_ok]
  have hok : files.filter (fun f => is_ok (res f)) = [] := by
    rw [List.filter_eq_nil_iff]
    intro f hf
    simp [h f hf, is_ok]
  obtain ⟨f0, hf0⟩ : ∃ f, f ∈ files := by
    cases files with
    | nil => exact absurd rfl hne
    | cons a l => exact ⟨a, List.mem_cons_self a l⟩
  unfold upload_experiment_data
  rw [hfailed, hok]
  have hany : files.any (fun f => is_conflict_code (res f)) = true := by
    rw [List.any_eq_true]
    exact ⟨f0, hf0, by simp [h f0 hf0, is_conflict_code]⟩
  have hempty : files.isEmpty = false := by
    cases files with
    | nil => exact absurd rfl hne
    | cons a l => rfl
  simp [hany, hempty]

lemma upload_all_ok (res : String → UploadResult) (files : List String)
    (h : ∀ f ∈ files, res f = UploadResult.ok) :
    upload_experiment_data res files =
      { success := true, had_conflict_errors := false, uploaded_count := files.length } := by
  have hok : files.filter (fun f => is_ok (res f)) = files := by
    rw [List.filter_eq_self]
    intro f hf
    simp [h f hf, is_ok]
  have hfailed : files.filter (fun f => ¬ is_ok (res f)) = [] := by
    rw [List.filter_eq_nil_iff]
    intro f hf
    simp [h f hf, is_ok]
  unfold upload_experiment_data
  rw [hfailed, hok]
  rfl

end Submit

/-- C4: for an upload batch in which every file fails with a conflict at
version 0 and every file succeeds at version 1 (starting from a manifest
with no recorded version, so the attempts begin at version 0), the
scheduler returns overall success, the final upload path is the version-1
path `folder/taskId_v1`, and the value persisted afterwards as
`last_submission_version` is `1` (and `0` is never persisted). -/
theorem c4_conflict_retry_persists_version_one (res : Nat → String → Submit.UploadResult)
    (files : List String) (folder task : String) (manifest : Submit.Manifest)
    (hstart : Submit.manifest_get manifest "last_submission_version" = none)
    (hne : files ≠ [])
    (h0 : ∀ f ∈ files, res 0 f = Submit.UploadResult.err409)
    (h1 : ∀ f ∈ files, res 1 f = Submit.UploadResult.ok) :
    ∃ r : Submit.SubmitResult,
      Submit.submit_main res files folder task manifest = some r ∧
      r.upload_successful = true ∧
      r.final_upload_path = some (Submit.get_upload_path_from_version folder task 1) ∧
      r.final_version = some 1 ∧
      Submit.manifest_get r.manifest "last_submission_version" = some (Submit.JVal.num 1) ∧
      r.writes = [1] := by
  have hstartv : Submit.starting_version manifest = some 0 := by
    simp [Submit.starting_version, hstart]
  have hA := Submit.upload_all_conflict (res 0) files hne h0
  have hB := Submit.upload_all_ok (res 1) files h1
  have hpos : 0 < files.length := by
    cases files with
    | nil => exact absurd rfl hne
    | cons a l => simp
  refine ⟨_, by rw [Submit.submit_main, hstartv, Option.map_some'], ?_, ?_, ?_, ?_, ?_⟩ <;>
  · show _ = _
    rw [show Submit.max_attempts = 4 + 1 from rfl, Submit.run_attempts_succ, hA]
    simp only [show (0 + 1 : Nat) = 1 from rfl]
    rw [show (4 : Nat) = 3 + 1 from rfl, Submit.run_attempts_succ, hB]
    simp [hpos, Submit.manifest_get, Submit.lookup_dict_set_self, Submit.update_manifest_version]

/-- Witness for C4: one file, conflict at version 0, success at version 1,
starting from the empty manifest. -/
theorem c4_conflict_retry_persists_version_one_witness :
    Submit.manifest_get [] "last_submission_version" = none ∧
    (["f"] : List String) ≠ [] ∧
    (∀ f ∈ (["f"] : List String),
      (fun (v : Nat) (_ : String) =>
        if v = 0 then Submit.UploadResult.err409 else Submit.UploadResult.ok) 0 f =
        Submit.UploadResult.err409) ∧
    (∀ f ∈ (["f"] : List String),
      (fun (v : Nat) (_ : String) =>
        if v = 0 then Submit.UploadResult.err409 else Submit.UploadResult.ok) 1 f =
        Submit.UploadResult.ok) ∧
    (∃ r : Submit.SubmitResult,
      Submit.submit_main
          (fun (v : Nat) (_ : String) =>
            if v = 0 then Submit.UploadResult.err409 else Submit.UploadResult.ok)
          ["f"] "folder" "task" [] = some r ∧
      r.upload_successful = true ∧
      r.final_upload_path = some (Submit.get_upload_path_from_version "folder" "task" 1) ∧
      r.final_version = some 1 ∧
      Submit.manifest_get r.manifest "last_submission_version" = some (Submit.JVal.num 1) ∧
      r.writes = [1]) :=
  ⟨by decide, by decide, by decide, by decide,
   c4_conflict_retry_persists_version_one
     (fun (v : Nat) (_ : String) =>
       if v = 0 then Submit.UploadResult.err409 else Submit.UploadResult.ok)
     ["f"] "folder" "task" [] (by decide) (by decide) (by decide) (by decide)⟩

namespace Submit

/-- Versions already written to the manifest stay in the write list. -/
lemma run_attempts_writes_mono (res : Nat → String → UploadResult) (upload_files : List String)
    (sprint_folder task_id : String) :
    ∀ (fuel version : Nat) (manifest : Manifest) (fv : Option Nat) (ws : List Nat)
      (log : List (Nat × AttemptOutcome)) (v : Nat), v ∈ ws →
      v ∈ (run_attempts res upload_files sprint_folder task_id fuel version manifest fv ws
            log).writes := by
  intro fuel
  induction fuel with
  | zero => intro version manifest fv ws log v hv; exact hv
  | succ fuel ih =>
      intro version manifest fv ws log v hv
      rw [run_attempts_succ]
      set o := upload_experiment_data (res version) upload_files with ho
      have hv' : v ∈ (if 0 < o.uploaded_count then ws ++ [version] else ws) := by
        by_cases hcnt : 0 < o.uploaded_count
        · simp only [if_pos hcnt]; exact List.mem_append_left _ hv
        · simpa only [if_neg hcnt] using hv
      by_cases hs : o.success
      · simp only [hs, if_true]
        exact hv'
      · simp only [hs, Bool.false_eq_true, if_false]
        by_cases hc : o.had_conflict_errors ∧ 0 < fuel
        · simp only [if_pos hc]
          exact ih _ _ _ _ _ v hv'
        · simp only [if_neg hc]
          exact hv'

/-- Invariant transported by the attempt loop: every logged attempt that
uploaded at least one file has its version in the write list. -/
lemma run_attempts_log_writes (res : Nat → String → UploadResult) (upload_files : List String)
    (sprint_folder task_id : String) :
    ∀ (fuel version : Nat) (manifest : Manifest) (fv : Option Nat) (ws : List Nat)
      (log : List (Nat × AttemptOutcome)),
      (∀ p : Nat × AttemptOutcome, p ∈ log → 0 < p.2.uploaded_count → p.1 ∈ ws) →
      ∀ p : Nat × AttemptOutcome,
        p ∈ (run_attempts res upload_files sprint_folder task_id fuel version manifest fv ws
              log).attempt_log →
        0 < p.2.uploaded_count →
        p.1 ∈ (run_attempts res upload_files sprint_folder task_id fuel version manifest fv ws
              log).writes := by
  intro fuel
  induction fuel with
  | zero => intro version manifest fv ws log hinv p hp hcnt; exact hinv p hp hcnt
  | succ fuel ih =>
      intro version manifest fv ws log hinv p hp hcnt
      rw [run_attempts_succ] at hp ⊢
      set o := upload_experiment_data (res version) upload_files with ho
      have hinv' : ∀ q : Nat × AttemptOutcome, q ∈ log ++ [(version, o)] →
          0 < q.2.uploaded_count →
          q.1 ∈ (if 0 < o.uploaded_count then ws ++ [version] else ws) := by
        intro q hq hqcnt
        rcases List.mem_append.mp hq with hq | hq
        · by_cases hcnt0 : 0 < o.uploaded_count
          · simp only [if_pos hcnt0]
            exact List.mem_append_left _ (hinv q hq hqcnt)
          · simpa only [if_neg hcnt0] using hinv q hq hqcnt
        · have hq' : q = (version, o) := List.mem_singleton.mp hq
          subst hq'
          simp only [if_pos hqcnt]
          exact List.mem_append_right _ (List.mem_singleton_self _)
      by_cases hs : o.success
      · simp only [hs, if_true] at hp ⊢
        exact hinv' p hp hcnt
      · simp only [hs, Bool.false_eq_true, if_false] at hp ⊢
        by_cases hc : o.had_conflict_errors ∧ 0 < fuel
        · simp only [if_pos hc] at hp ⊢
          exact ih _ _ _ _ _ hinv' p hp hcnt
        · simp only [if_neg hc] at hp ⊢
          exact hinv' p hp hcnt

end Submit

/-- C5: for every submission attempt that the upload loop executed in
which at least one upload task succeeded (`uploaded_count > 0`), that
attempt's version number was written to the manifest by
`update_manifest_version` (it appears in the list of persisted versions),
even when other tasks of the same attempt failed and the attempt as a
whole failed. -/
theorem c5_partial_success_persists_version (res : Nat → String → Submit.UploadResult)
    (files : List String) (folder task : String) (manifest : Submit.Manifest)
    (r : Submit.SubmitResult)
    (hrun : Submit.submit_main res files folder task manifest = some r)
    (v : Nat) (o : Submit.AttemptOutcome)
    (hlog : (v, o) ∈ r.attempt_log) (hcnt : 0 < o.uploaded_count) :
    v ∈ r.writes := by
  rcases hv0 : Submit.starting_version manifest with _ | v0
  · rw [Submit.submit_main, hv0] at hrun
    exact absurd hrun (by simp)
  · rw [Submit.submit_main, hv0, Option.map_some'] at hrun
    have h := Submit.run_attempts_log_writes res files folder task Submit.max_attempts v0
      manifest none [] [] (by intro p hp; exact absurd hp (List.not_mem_nil p)) (v, o)
    have hr := Option.some.inj hrun
    rw [hr] at h
    exact h hlog hcnt

/-- Witness for C5: two files, one uploads fine and the other fails with a
non-conflict error, so the attempt (and the whole submission) fails, yet
version 0 is persisted. -/
theorem c5_partial_success_persists_version_witness :
    Submit.submit_main
        (fun (_ : Nat) (f : String) =>
          if f = "a" then Submit.UploadResult.ok else Submit.UploadResult.errOther)
        ["a", "b"] "folder" "task" [] =
      some
        { upload_successful := false
          final_upload_path := none
          final_version := some 0
          manifest := [("last_submission_version", Submit.JVal.num 0)]
          writes := [0]
          attempt_log := [(0, { success := false, had_conflict_errors := false,
                                uploaded_count := 1 })] } ∧
    (0, { success := false, had_conflict_errors := false, uploaded_count := 1 }) ∈
      ({ upload_successful := false
         final_upload_path := none
         final_version := some 0
         manifest := [("last_submission_version", Submit.JVal.num 0)]
         writes := [0]
         attempt_log := [(0, { success := false, had_conflict_errors := false,
                               uploaded_count := 1 })] } : Submit.SubmitResult).attempt_log ∧
    0 < (1 : Nat) ∧
    0 ∈ ({ upload_successful := false
           final_upload_path := none
           final_version := some 0
           manifest := [("last_submission_version", Submit.JVal.num 0)]
           writes := [0]
           attempt_log := [(0, { success := false, had_conflict_errors := false,
                                 uploaded_count := 1 })] } : Submit.SubmitResult).writes :=
  ⟨by decide, by decide, by decide,
   c5_partial_success_persists_version
     (fun (_ : Nat) (f : String) =>
       if f = "a" then Submit.UploadResult.ok else Submit.UploadResult.errOther)
     ["a", "b"] "folder" "task" []
     { upload_successful := false
       final_upload_path := none
       final_version := some 0
       manifest := [("last_submission_version", Submit.JVal.num 0)]
       writes := [0]
       attempt_log := [(0, { success := false, had_conflict_errors := false,
                             uploaded_count := 1 })] }
     (by decide) 0
     { success := false, had_conflict_errors := false, uploaded_count := 1 }
     (by decide) (by decide)⟩

/-- C9 (counterexample): with `manifest.json` absent AND the required
directories `model_a`, `model_b`, `logs` absent, validation fails with a
single-item fatal report naming only `manifest.json` (the first missing
item encountered), not the complete list of missing required items: the
`manifest.json` and `snapshots` checks exit immediately before the
aggregated missing-item report is reached (submit.py:198-203 vs 327-331). -/
theorem c9_counterexample :
    Submit.validate_experiment_files
        { files := [], dirs := ["snapshots"], model_a_logs := [], model_b_logs := [] } =
      Except.error (Submit.VError.fatal "manifest.json not found in current directory") ∧
    Submit.required_dirs.filter
        (fun p => ¬ (Submit.FS.is_dir
          { files := [], dirs := ["snapshots"], model_a_logs := [], model_b_logs := [] } p)) =
      ["model_a", "model_b", "logs"] := by
  constructor
  · rfl
  · decide

/-- C9 (amended): once the two immediately-fatal preconditions hold
(`manifest.json` exists as a file and `snapshots` as a directory) and the
per-model session-log checks pass (or the `logs` directory is absent so
they are skipped), a validation failure caused by missing required files
or directories reports the complete list of all missing required items at
once.  A missing `manifest.json` or `snapshots` directory is instead
reported alone, immediately. -/
theorem c9_amended_full_missing_list (fs : Submit.FS)
    (hman : fs.is_file "manifest.json" = true)
    (hsnap : fs.is_dir "snapshots" = true)
    (hlogs : fs.path_exists "logs" = false ∨
      ((fs.model_a_logs.filter (fun n => ¬ n.endsWith "_raw.jsonl")).length = 1 ∧
       (fs.model_b_logs.filter (fun n => ¬ n.endsWith "_raw.jsonl")).length = 1))
    (hmiss : Submit.required_files.filter (fun p => ¬ fs.is_file p) ++
        Submit.required_dirs.filter (fun p => ¬ fs.is_dir p) ≠ []) :
    Submit.validate_experiment_files fs =
      Except.error (Submit.VError.missing_items
        (Submit.required_files.filter (fun p => ¬ fs.is_file p) ++
          Submit.required_dirs.filter (fun p => ¬ fs.is_dir p))) := by
  unfold Submit.validate_experiment_files
  rw [hman, hsnap]
  simp only [eq_self_iff_true, not_true, if_false]
  have hempty : (Submit.required_files.filter (fun p => ¬ fs.is_file p) ++
      Submit.required_dirs.filter (fun p => ¬ fs.is_dir p)).isEmpty = false := by
    rcases hlist : Submit.required_files.filter (fun p => ¬ fs.is_file p) ++
        Submit.required_dirs.filter (fun p => ¬ fs.is_dir p) with _ | ⟨a, l⟩
    · exact absurd hlist hmiss
    · rfl
  rcases hlogs with hlogs | ⟨ha, hb⟩
  · rw [hlogs]
    simp only [Bool.false_eq_true, if_false]
    rw [hempty]
    simp
  · rcases hpe : fs.path_exists "logs" with hpe | hpe
    · simp only [Bool.false_eq_true, if_false]
      rw [hempty]
      simp
    · simp only [eq_self_iff_true, if_true, ha, hb]
      rw [if_neg (by omega : ¬ (1 : Nat) = 0), if_neg (by omega : ¬ (1 : Nat) < 1),
        if_neg (by omega : ¬ (1 : Nat) = 0), if_neg (by omega : ¬ (1 : Nat) < 1)]
      rw [hempty]
      simp

/-- Witness for the amended C9: `manifest.json` and `snapshots` are
present, `logs` is absent, and the failure report lists both missing
required items (`model_b`'s settings file and the `logs` directory). -/
theorem c9_amended_full_missing_list_witness :
    Submit.FS.is_file
        { files := ["manifest.json", "model_a/.claude/settings.local.json"],
          dirs := ["snapshots", "model_a", "model_b"],
          model_a_logs := [], model_b_logs := [] } "manifest.json" = true ∧
    Submit.FS.is_dir
        { files := ["manifest.json", "model_a/.claude/settings.local.json"],
          dirs := ["snapshots", "model_a", "model_b"],
          model_a_logs := [], model_b_logs := [] } "snapshots" = true ∧
    Submit.FS.path_exists
        { files := ["manifest.json", "model_a/.claude/settings.local.json"],
          dirs := ["snapshots", "model_a", "model_b"],
          model_a_logs := [], model_b_logs := [] } "logs" = false ∧
    Submit.validate_experiment_files
        { files := ["manifest.json", "model_a/.claude/settings.local.json"],
          dirs := ["snapshots", "model_a", "model_b"],
          model_a_logs := [], model_b_logs := [] } =
      Except.error (Submit.VError.missing_items
        (Submit.required_files.filter (fun p => ¬ (Submit.FS.is_file
            { files := ["manifest.json", "model_a/.claude/settings.local.json"],
              dirs := ["snapshots", "model_a", "model_b"],
              model_a_logs := [], model_b_logs := [] } p)) ++
          Submit.required_dirs.filter (fun p => ¬ (Submit.FS.is_dir
            { files := ["manifest.json", "model_a/.claude/settings.local.json"],
              dirs := ["snapshots", "model_a", "model_b"],
              model_a_logs := [], model_b_logs := [] } p)))) :=
  ⟨by decide, by decide, by decide,
   c9_amended_full_missing_list
     { files := ["manifest.json", "model_a/.claude/settings.local.json"],
       dirs := ["snapshots", "model_a", "model_b"],
       model_a_logs := [], model_b_logs := [] }
     (by decide) (by decide) (Or.inl (by decide)) (by decide)⟩

namespace MergeSessions

/-- Inserting a message into any list keeps the sublist of messages with a
given sort key: the inserted message lands before every element of equal
key (every element it passes over has strictly smaller key). -/
lemma filter_orderedInsert_key (k : Nat) (x : OutMsg) :
    ∀ L : List OutMsg,
      (List.orderedInsert msgLe x L).filter (fun m => msgKey m == k) =
        if msgKey x = k then x :: L.filter (fun m => msgKey m == k)
        else L.filter (fun m => msgKey m == k)
  | [] => by
      by_cases h : msgKey x = k <;>
        simp [List.orderedInsert, List.filter_cons, h]
  | y :: L => by
      by_cases hxy : msgLe x y
      · by_cases h : msgKey x = k <;>
          simp [List.orderedInsert, if_pos hxy, List.filter_cons, h]
      · have hlt : msgKey y < msgKey x := by
          unfold msgLe at hxy
          omega
        simp only [List.orderedInsert, if_neg hxy, List.filter_cons]
        by_cases hk : msgKey x = k
        · have hyk : (msgKey y == k) = false := by
            rw [beq_eq_false_iff_ne]
            omega
          simp [hyk, filter_orderedInsert_key k x L, hk]
        · by_cases hyk : msgKey y = k <;>
            simp [hyk, filter_orderedInsert_key k x L, hk]

/-- Stability of the message sort: for every sort key, the subsequence of
messages with that key is unchanged by sorting. -/
lemma filter_sort_messages (k : Nat) :
    ∀ l : List OutMsg,
      (sort_messages l).filter (fun m => msgKey m == k) = l.filter (fun m => msgKey m == k)
  | [] => rfl
  | x :: l => by
      show (List.orderedInsert msgLe x (List.insertionSort msgLe l)).filter _ = _
      rw [filter_orderedInsert_key]
      by_cases h : msgKey x = k
      · have : (msgKey x == k) = true := beq_iff_eq.mpr h
        simp only [if_pos h, List.filter_cons, this, if_true]
        exact congrArg (x :: ·) (filter_sort_messages k l)
      · have : (msgKey x == k) = false := beq_eq_false_iff_ne.mpr h
        simp only [if_neg h, List.filter_cons, this, Bool.false_eq_true, if_false]
        exact filter_sort_messages k l

end MergeSessions

/-- C2: for every set of at least two input session files, the merge
succeeds and the message lines of the consolidated output are sorted
non-decreasingly by parsed timestamp (missing/unparsable timestamps being
the minimum sentinel), and the sort is stable: for every timestamp key,
the messages carrying that key appear exactly in the order in which they
were collected from the input files (input-file order, messages of one
file in file order). -/
theorem c2_messages_sorted_and_stable (files : List MergeSessions.SessionFile)
    (mergedSid : String) (now : Nat) (h2 : 2 ≤ files.length) :
    ∃ mo : MergeSessions.MergedOutput,
      MergeSessions.merge_sessions files mergedSid now = some mo ∧
      List.Sorted MergeSessions.msgLe mo.messages ∧
      ∀ k : Nat,
        mo.messages.filter (fun m => MergeSessions.msgKey m == k) =
          (MergeSessions.collect_messages (MergeSessions.find_session_files files)
              mergedSid).filter (fun m => MergeSessions.msgKey m == k) := by
  have hlen : ¬ (MergeSessions.find_session_files files).length < 2 := by
    rw [MergeSessions.find_session_files, List.length_insertionSort]
    omega
  refine ⟨{ session_id := mergedSid,
            start_timestamp := ((((MergeSessions.find_session_files files).map
              (fun f => MergeSessions.extract_session_data f.events)).head?.bind
                (fun sd => sd.session_start)).bind (fun e => e.timestamp)).getD now,
            messages := MergeSessions.sort_messages
              (MergeSessions.collect_messages (MergeSessions.find_session_files files) mergedSid),
            end_timestamp := ((((MergeSessions.find_session_files files).map
              (fun f => MergeSessions.extract_session_data f.events)).getLast?.bind
                (fun sd => sd.session_end)).bind (fun e => e.timestamp)).getD now },
          ?_, List.sorted_insertionSort MergeSessions.msgLe _,
          fun k => MergeSessions.filter_sort_messages k _⟩
  rw [MergeSessions.merge_sessions]
  rw [if_neg hlen]

/-- Witness for C2 on two concrete interleaved session files. -/
theorem c2_messages_sorted_and_stable_witness :
    2 ≤ ([⟨"a", [⟨"session_start", some 0, some "a", ""⟩,
                 ⟨"user", some 5, some "a", "m1"⟩,
                 ⟨"session_end", some 6, some "a", ""⟩]⟩,
          ⟨"b", [⟨"session_start", some 1, some "b", ""⟩,
                 ⟨"user", some 2, some "b", "m2"⟩,
                 ⟨"user", some 5, some "b", "m3"⟩,
                 ⟨"session_end", some 7, some "b", ""⟩]⟩] :
          List MergeSessions.SessionFile).length ∧
    ∃ mo : MergeSessions.MergedOutput,
      MergeSessions.merge_sessions
          [⟨"a", [⟨"session_start", some 0, some "a", ""⟩,
                  ⟨"user", some 5, some "a", "m1"⟩,
                  ⟨"session_end", some 6, some "a", ""⟩]⟩,
           ⟨"b", [⟨"session_start", some 1, some "b", ""⟩,
                  ⟨"user", some 2, some "b", "m2"⟩,
                  ⟨"user", some 5, some "b", "m3"⟩,
                  ⟨"session_end", some 7, some "b", ""⟩]⟩]
          "merged" 99 = some mo ∧
      List.Sorted MergeSessions.msgLe mo.messages ∧
      ∀ k : Nat,
        mo.messages.filter (fun m => MergeSessions.msgKey m == k) =
          (MergeSessions.collect_messages
              (MergeSessions.find_session_files
                [⟨"a", [⟨"session_start", some 0, some "a", ""⟩,
                        ⟨"user", some 5, some "a", "m1"⟩,
                        ⟨"session_end", some 6, some "a", ""⟩]⟩,
                 ⟨"b", [⟨"session_start", some 1, some "b", ""⟩,
                        ⟨"user", some 2, some "b", "m2"⟩,
                        ⟨"user", some 5, some "b", "m3"⟩,
                        ⟨"session_end", some 7, some "b", ""⟩]⟩])
              "merged").filter (fun m => MergeSessions.msgKey m == k) :=
  ⟨by decide,
   c2_messages_sorted_and_stable
     [⟨"a", [⟨"session_start", some 0, some "a", ""⟩,
             ⟨"user", some 5, some "a", "m1"⟩,
             ⟨"session_end", some 6, some "a", ""⟩]⟩,
      ⟨"b", [⟨"session_start", some 1, some "b", ""⟩,
             ⟨"user", some 2, some "b", "m2"⟩,
             ⟨"user", some 5, some "b", "m3"⟩,
             ⟨"session_end", some 7, some "b", ""⟩]⟩]
     "merged" 99 (by decide)⟩

namespace MergeSessions

lemma foldl_max_init_le : ∀ (l : List Nat) (a : Nat), a ≤ l.foldl max a
  | [], a => Nat.le_refl a
  | y :: l, a => Nat.le_trans (Nat.le_max_left a y) (foldl_max_init_le l (max a y))

lemma le_foldl_max (x : Nat) : ∀ (l : List Nat) (a : Nat), x ∈ l → x ≤ l.foldl max a
  | [], _, hx => absurd hx (List.not_mem_nil x)
  | y :: l, a, hx => by
      rcases List.mem_cons.mp hx with rfl | hx
      · exact Nat.le_trans (Nat.le_max_right a x) (foldl_max_init_le l (max a x))
      · exact le_foldl_max x l (max a y) hx

lemma foldl_max_le (b : Nat) : ∀ (l : List Nat) (a : Nat), a ≤ b → (∀ x ∈ l, x ≤ b) →
    l.foldl max a ≤ b
  | [], a, ha, _ => ha
  | y :: l, a, ha, hl => by
      refine foldl_max_le b l (max a y) ?_ (fun x hx => hl x (List.mem_cons_of_mem y hx))
      exact max_le ha (hl y (List.mem_cons_self y l))

/-- Fact: `list_max` is the maximum: it equals any member that dominates the
whole list. -/
lemma list_max_eq (l : List Nat) (t : Nat) (ht : t ∈ l) (hmax : ∀ y ∈ l, y ≤ t) :
    list_max l = t :=
  Nat.le_antisymm (foldl_max_le t l 0 (Nat.zero_le t) hmax) (le_foldl_max t l 0 ht)

end MergeSessions

/-- C6 (counterexample): with two input sessions — one starting at 0 and
ending at 100, the other starting at 1 and ending at 3 — the synthesized
`session_end` timestamp of the merged output is `3`, the end timestamp of
the session that sorts LAST by `session_start` time, and not `100`, the
latest (maximum) `session_end` timestamp among the inputs
(merge_sessions.py:248-251 and 330-338 read the end event of
`all_session_data[-1]` only). -/
theorem c6_counterexample :
    (MergeSessions.merge_sessions
        [⟨"a", [⟨"session_start", some 0, some "a", ""⟩,
                ⟨"session_end", some 100, some "a", ""⟩]⟩,
         ⟨"b", [⟨"session_start", some 1, some "b", ""⟩,
                ⟨"session_end", some 3, some "b", ""⟩]⟩]
        "m" 999).map MergeSessions.MergedOutput.end_timestamp = some 3 ∧
    MergeSessions.list_max (MergeSessions.end_timestamps
        [⟨"a", [⟨"session_start", some 0, some "a", ""⟩,
                ⟨"session_end", some 100, some "a", ""⟩]⟩,
         ⟨"b", [⟨"session_start", some 1, some "b", ""⟩,
                ⟨"session_end", some 3, some "b", ""⟩]⟩]) = 100 ∧
    (3 : Nat) ≠ 100 := by
  refine ⟨?_, ?_, ?_⟩ <;> decide

/-- C6 (amended): the synthesized `session_end` timestamp of a merged
output equals the `session_end` timestamp of the input session that sorts
last by `session_start` time (falling back to the current time when that
session has no end event or no timestamp on it); it equals the latest
(maximum) end timestamp of all input sessions only under the additional
assumption that no other session ends later than that last-sorted one. -/
theorem c6_amended_end_timestamp (files : List MergeSessions.SessionFile)
    (mergedSid : String) (now : Nat) (f : MergeSessions.SessionFile)
    (e : MergeSessions.Event) (t : Nat)
    (h2 : 2 ≤ files.length)
    (hlast : (MergeSessions.find_session_files files).getLast? = some f)
    (hend : (MergeSessions.extract_session_data f.events).session_end = some e)
    (hts : e.timestamp = some t) :
    ∃ mo : MergeSessions.MergedOutput,
      MergeSessions.merge_sessions files mergedSid now = some mo ∧
      mo.end_timestamp = t ∧
      ((∀ y ∈ MergeSessions.end_timestamps files, y ≤ t) →
        mo.end_timestamp = MergeSessions.list_max (MergeSessions.end_timestamps files)) := by
  have hlen : ¬ (MergeSessions.find_session_files files).length < 2 := by
    rw [MergeSessions.find_session_files, List.length_insertionSort]
    omega
  have hlastd : ((MergeSessions.find_session_files files).map
      (fun f => MergeSessions.extract_session_data f.events)).getLast? =
      some (MergeSessions.extract_session_data f.events) := by
    rw [List.getLast?_map, hlast, Option.map_some']
  have hmem : t ∈ MergeSessions.end_timestamps files := by
    rw [MergeSessions.end_timestamps, List.mem_filterMap]
    refine ⟨f, ?_, by rw [hend, Option.some_bind, hts]⟩
    have : f ∈ MergeSessions.find_session_files files := by
      rcases List.getLast?_eq_some_iff.mp hlast with ⟨ys, hys⟩
      rw [hys]
      exact List.mem_append_right ys (List.mem_singleton_self f)
    rwa [MergeSessions.find_session_files, List.mem_insertionSort] at this
  refine ⟨{ session_id := mergedSid,
            start_timestamp := ((((MergeSessions.find_session_files files).map
              (fun f => MergeSessions.extract_session_data f.events)).head?.bind
                (fun sd => sd.session_start)).bind (fun e => e.timestamp)).getD now,
            messages := MergeSessions.sort_messages
              (MergeSessions.collect_messages (MergeSessions.find_session_files files) mergedSid),
            end_timestamp := ((((MergeSessions.find_session_files files).map
              (fun f => MergeSessions.extract_session_data f.events)).getLast?.bind
                (fun sd => sd.session_end)).bind (fun e => e.timestamp)).getD now },
          ?_, ?_, ?_⟩
  · rw [MergeSessions.merge_sessions]
    rw [if_neg hlen]
  · show ((((MergeSessions.find_session_files files).map
      (fun f => MergeSessions.extract_session_data f.events)).getLast?.bind
        (fun sd => sd.session_end)).bind (fun e => e.timestamp)).getD now = t
    rw [hlastd, Option.some_bind, hend, Option.some_bind, hts]
    rfl
  · intro hdom
    show ((((MergeSessions.find_session_files files).map
      (fun f => MergeSessions.extract_session_data f.events)).getLast?.bind
        (fun sd => sd.session_end)).bind (fun e => e.timestamp)).getD now =
      MergeSessions.list_max (MergeSessions.end_timestamps files)
    rw [hlastd, Option.some_bind, hend, Option.some_bind, hts]
    rw [MergeSessions.list_max_eq (MergeSessions.end_timestamps files) t hmem hdom]
    rfl

/-- Witness for the amended C6: the second session both starts and ends
last, so the merged end time is its end time, which is also the maximum. -/
theorem c6_amended_end_timestamp_witness :
    2 ≤ ([⟨"a", [⟨"session_start", some 0, some "a", ""⟩,
                 ⟨"session_end", some 3, some "a", ""⟩]⟩,
          ⟨"b", [⟨"session_start", some 1, some "b", ""⟩,
                 ⟨"session_end", some 100, some "b", ""⟩]⟩] :
          List MergeSessions.SessionFile).length ∧
    (MergeSessions.find_session_files
        [⟨"a", [⟨"session_start", some 0, some "a", ""⟩,
                ⟨"session_end", some 3, some "a", ""⟩]⟩,
         ⟨"b", [⟨"session_start", some 1, some "b", ""⟩,
                ⟨"session_end", some 100, some "b", ""⟩]⟩]).getLast? =
      some ⟨"b", [⟨"session_start", some 1, some "b", ""⟩,
                  ⟨"session_end", some 100, some "b", ""⟩]⟩ ∧
    (MergeSessions.extract_session_data
        [⟨"session_start", some 1, some "b", ""⟩,
         ⟨"session_end", some 100, some "b", ""⟩]).session_end =
      some ⟨"session_end", some 100, some "b", ""⟩ ∧
    (⟨"session_end", some 100, some "b", ""⟩ : MergeSessions.Event).timestamp = some 100 ∧
    ∃ mo : MergeSessions.MergedOutput,
      MergeSessions.merge_sessions
          [⟨"a", [⟨"session_start", some 0, some "a", ""⟩,
                  ⟨"session_end", some 3, some "a", ""⟩]⟩,
           ⟨"b", [⟨"session_start", some 1, some "b", ""⟩,
                  ⟨"session_end", some 100, some "b", ""⟩]⟩]
          "m" 999 = some mo ∧
      mo.end_timestamp = 100 ∧
      ((∀ y ∈ MergeSessions.end_timestamps
          [⟨"a", [⟨"session_start", some 0, some "a", ""⟩,
                  ⟨"session_end", some 3, some "a", ""⟩]⟩,
           ⟨"b", [⟨"session_start", some 1, some "b", ""⟩,
                  ⟨"session_end", some 100, some "b", ""⟩]⟩], y ≤ 100) →
        mo.end_timestamp = MergeSessions.list_max (MergeSessions.end_timestamps
          [⟨"a", [⟨"session_start", some 0, some "a", ""⟩,
                  ⟨"session_end", some 3, some "a", ""⟩]⟩,
           ⟨"b", [⟨"session_start", some 1, some "b", ""⟩,
                  ⟨"session_end", some 100, some "b", ""⟩]⟩])) :=
  ⟨by decide, by decide, by decide, by decide,
   c6_amended_end_timestamp
     [⟨"a", [⟨"session_start", some 0, some "a", ""⟩,
             ⟨"session_end", some 3, some "a", ""⟩]⟩,
      ⟨"b", [⟨"session_start", some 1, some "b", ""⟩,
             ⟨"session_end", some 100, some "b", ""⟩]⟩]
     "m" 999
     ⟨"b", [⟨"session_start", some 1, some "b", ""⟩,
            ⟨"session_end", some 100, some "b", ""⟩]⟩
     ⟨"session_end", some 100, some "b", ""⟩ 100
     (by decide) (by decide) (by decide) (by decide)⟩

/-- C7 (counterexample): `original_session_id` is copied from the
message's own `session_id` field (`msg.get('session_id', 'unknown')`,
merge_sessions.py:287), not from the source file's session id: a message
without a `session_id` field, stored in the file of session "a", comes out
with `original_session_id = "unknown"`, which is no input file's id. -/
theorem c7_counterexample :
    (MergeSessions.merge_sessions
        [⟨"a", [⟨"session_start", some 0, some "a", ""⟩,
                ⟨"user", some 2, none, "m1"⟩,
                ⟨"session_end", some 3, some "a", ""⟩]⟩,
         ⟨"b", [⟨"session_start", some 1, some "b", ""⟩,
                ⟨"user", some 4, some "b", "m2"⟩,
                ⟨"session_end", some 5, some "b", ""⟩]⟩]
        "m" 9).map (fun mo => mo.messages.map MergeSessions.OutMsg.original_session_id) =
      some ["unknown", "b"] ∧
    ("unknown" : String) ∉
      [(⟨"a", [⟨"session_start", some 0, some "a", ""⟩,
               ⟨"user", some 2, none, "m1"⟩,
               ⟨"session_end", some 3, some "a", ""⟩]⟩ : MergeSessions.SessionFile).sid,
       (⟨"b", [⟨"session_start", some 1, some "b", ""⟩,
               ⟨"user", some 4, some "b", "m2"⟩,
               ⟨"session_end", some 5, some "b", ""⟩]⟩ : MergeSessions.SessionFile).sid] := by
  refine ⟨?_, ?_⟩ <;> decide

/-- C7 (amended): provided every message of every input file carries its
file's session id in its own `session_id` field (the normal shape of a
session log), every message of the merged output has `session_id` equal to
the new merged id and `original_session_id` equal to the session id of the
source file it came from; in general `original_session_id` is the
message's own original `session_id` field (`"unknown"` when absent). -/
theorem c7_amended_traceability (files : List MergeSessions.SessionFile)
    (mergedSid : String) (now : Nat)
    (h2 : 2 ≤ files.length)
    (hsid : ∀ f ∈ files, ∀ m ∈ (MergeSessions.extract_session_data f.events).messages,
      m.session_id = some f.sid) :
    ∃ mo : MergeSessions.MergedOutput,
      MergeSessions.merge_sessions files mergedSid now = some mo ∧
      ∀ om ∈ mo.messages,
        om.session_id = mergedSid ∧
        ∃ f ∈ files, ∃ m ∈ (MergeSessions.extract_session_data f.events).messages,
          om = MergeSessions.rekey mergedSid m ∧ om.original_session_id = f.sid := by
  have hlen : ¬ (MergeSessions.find_session_files files).length < 2 := by
    rw [MergeSessions.find_session_files, List.length_insertionSort]
    omega
  refine ⟨{ session_id := mergedSid,
            start_timestamp := ((((MergeSessions.find_session_files files).map
              (fun f => MergeSessions.extract_session_data f.events)).head?.bind
                (fun sd => sd.session_start)).bind (fun e => e.timestamp)).getD now,
            messages := MergeSessions.sort_messages
              (MergeSessions.collect_messages (MergeSessions.find_session_files files) mergedSid),
            end_timestamp := ((((MergeSessions.find_session_files files).map
              (fun f => MergeSessions.extract_session_data f.events)).getLast?.bind
                (fun sd => sd.session_end)).bind (fun e => e.timestamp)).getD now },
          ?_, ?_⟩
  · rw [MergeSessions.merge_sessions]
    rw [if_neg hlen]
  · intro om hom
    have hcoll : om ∈ MergeSessions.collect_messages
        (MergeSessions.find_session_files files) mergedSid := by
      rw [MergeSessions.sort_messages] at hom
      exact (List.mem_insertionSort MergeSessions.msgLe).mp hom
    rw [MergeSessions.collect_messages, List.mem_flatten] at hcoll
    obtain ⟨L, hL, homL⟩ := hcoll
    rw [List.mem_map] at hL
    obtain ⟨f, hf, rfl⟩ := hL
    rw [List.mem_map] at homL
    obtain ⟨m, hm, rfl⟩ := homL
    have hf' : f ∈ files := by
      rwa [MergeSessions.find_session_files, List.mem_insertionSort] at hf
    refine ⟨rfl, f, hf', m, hm, rfl, ?_⟩
    show (m.session_id).getD "unknown" = f.sid
    rw [hsid f hf' m hm]
    rfl

/-- Witness for the amended C7 on two well-formed session files. -/
theorem c7_amended_traceability_witness :
    2 ≤ ([⟨"a", [⟨"session_start", some 0, some "a", ""⟩,
                 ⟨"user", some 2, some "a", "m1"⟩,
                 ⟨"session_end", some 3, some "a", ""⟩]⟩,
          ⟨"b", [⟨"session_start", some 1, some "b", ""⟩,
                 ⟨"user", some 4, some "b", "m2"⟩,
                 ⟨"session_end", some 5, some "b", ""⟩]⟩] :
          List MergeSessions.SessionFile).length ∧
    (∀ f ∈ ([⟨"a", [⟨"session_start", some 0, some "a", ""⟩,
                    ⟨"user", some 2, some "a", "m1"⟩,
                    ⟨"session_end", some 3, some "a", ""⟩]⟩,
             ⟨"b", [⟨"session_start", some 1, some "b", ""⟩,
                    ⟨"user", some 4, some "b", "m2"⟩,
                    ⟨"session_end", some 5, some "b", ""⟩]⟩] :
             List MergeSessions.SessionFile),
      ∀ m ∈ (MergeSessions.extract_session_data f.events).messages,
        m.session_id = some f.sid) ∧
    ∃ mo : MergeSessions.MergedOutput,
      MergeSessions.merge_sessions
          [⟨"a", [⟨"session_start", some 0, some "a", ""⟩,
                  ⟨"user", some 2, some "a", "m1"⟩,
                  ⟨"session_end", some 3, some "a", ""⟩]⟩,
           ⟨"b", [⟨"session_start", some 1, some "b", ""⟩,
                  ⟨"user", some 4, some "b", "m2"⟩,
                  ⟨"session_end", some 5, some "b", ""⟩]⟩]
          "merged" 9 = some mo ∧
      ∀ om ∈ mo.messages,
        om.session_id = "merged" ∧
        ∃ f ∈ ([⟨"a", [⟨"session_start", some 0, some "a", ""⟩,
                       ⟨"user", some 2, some "a", "m1"⟩,
                       ⟨"session_end", some 3, some "a", ""⟩]⟩,
                ⟨"b", [⟨"session_start", some 1, some "b", ""⟩,
                       ⟨"user", some 4, some "b", "m2"⟩,
                       ⟨"session_end", some 5, some "b", ""⟩]⟩] :
                List MergeSessions.SessionFile),
          ∃ m ∈ (MergeSessions.extract_session_data f.events).messages,
            om = MergeSessions.rekey "merged" m ∧ om.original_session_id = f.sid :=
  ⟨by decide, by decide,
   c7_amended_traceability
     [⟨"a", [⟨"session_start", some 0, some "a", ""⟩,
             ⟨"user", some 2, some "a", "m1"⟩,
             ⟨"session_end", some 3, some "a", ""⟩]⟩,
      ⟨"b", [⟨"session_start", some 1, some "b", ""⟩,
             ⟨"user", some 4, some "b", "m2"⟩,
             ⟨"session_end", some 5, some "b", ""⟩]⟩]
     "merged" 9 (by decide) (by decide)⟩

namespace MergeSessions

/-- A scalar field of the accumulator that each loop iteration bumps by a
per-summary delta ends as the initial value plus the sum of the deltas. -/
lemma foldl_step_add (f : Totals → Nat) (δ : Summary → Nat) :
    ∀ (l : List Summary) (acc : Totals),
      (∀ t : Totals, ∀ s ∈ l, f (aggregate_step t s) = f t + δ s) →
      f (l.foldl aggregate_step acc) = f acc + (l.map δ).sum
  | [], acc, _ => by simp
  | s :: l, acc, hstep => by
      simp only [List.foldl_cons, List.map_cons, List.sum_cons]
      rw [foldl_step_add f δ l (aggregate_step acc s)
        (fun t s' hs' => hstep t s' (List.mem_cons_of_mem s hs'))]
      rw [hstep acc s (List.mem_cons_self s l)]
      omega

/-- A field of the accumulator that each loop iteration maxes with a
per-summary value ends as the running maximum of those values. -/
lemma foldl_step_max (f : Totals → Nat) (δ : Summary → Nat) :
    ∀ (l : List Summary) (acc : Totals),
      (∀ t : Totals, ∀ s ∈ l, f (aggregate_step t s) = max (f t) (δ s)) →
      f (l.foldl aggregate_step acc) = (l.map δ).foldl max (f acc)
  | [], acc, _ => by simp
  | s :: l, acc, hstep => by
      simp only [List.foldl_cons, List.map_cons]
      rw [foldl_step_max f δ l (aggregate_step acc s)
        (fun t s' hs' => hstep t s' (List.mem_cons_of_mem s hs'))]
      rw [hstep acc s (List.mem_cons_self s l)]

lemma lookup_eq_none_of_not_mem_keys (k : String) :
    ∀ l : List (String × Nat), k ∉ l.map Prod.fst → List.lookup k l = none
  | [], _ => rfl
  | (a, v) :: l, h => by
      have hka : ¬ k = a := fun hk => h (by rw [List.map_cons]; exact hk ▸ List.mem_cons_self _ _)
      have : (k == a) = false := beq_eq_false_iff_ne.mpr hka
      simp only [List.lookup, this]
      exact lookup_eq_none_of_not_mem_keys k l (fun hk => h (List.mem_cons_of_mem _ hk))

/-- Folding one input dict into the running defaultdict adds, at every
key, exactly the value that dict holds at the key (zero when absent),
provided the dict's keys are distinct (as a Python dict's always are). -/
lemma add_entries_apply (k : String) :
    ∀ (entries : List (String × Nat)) (g : String → Nat),
      (entries.map Prod.fst).Nodup →
      add_entries g entries k = g k + (List.lookup k entries).getD 0
  | [], g, _ => by simp [add_entries, List.lookup]
  | (a, v) :: entries, g, hnodup => by
      rw [List.map_cons, List.nodup_cons] at hnodup
      obtain ⟨ha, hnodup⟩ := hnodup
      show add_entries (fun j => if j = a then g j + v else g j) entries k = _
      rw [add_entries_apply k entries _ hnodup]
      by_cases hk : k = a
      · subst hk
        have h1 : List.lookup k ((k, v) :: entries) = some v := by
          simp [List.lookup]
        have h2 : List.lookup k entries = none := lookup_eq_none_of_not_mem_keys k entries ha
        rw [h1, h2]
        simp
      · have hbeq : (k == a) = false := beq_eq_false_iff_ne.mpr hk
        have h1 : List.lookup k ((a, v) :: entries) = List.lookup k entries := by
          simp [List.lookup, hbeq]
        rw [h1]
        simp [hk]

end MergeSessions

/-- C3: aggregating a list of summary payloads sums every scalar counter
field across the inputs with missing fields counting as zero (duration,
message counts, user metrics, token counts, tool-call counts and
thinking-turn counts), merges the per-tool and per-thinking-level keyed
mappings key-wise by summing the per-key values (zero when a key is
absent from an input, keys of each input dict being distinct), and takes
the maximum observed value for `files_changed_count` and
`lines_of_code_changed_count`. -/
theorem c3_aggregate_summaries_sums_and_maxes (summaries : List MergeSessions.Summary)
    (htm : ∀ s ∈ summaries,
      ((MergeSessions.tmOf s).tool_calls_by_type.map Prod.fst).Nodup)
    (hthm : ∀ s ∈ summaries,
      ((MergeSessions.thmOf s).thinking_levels.map Prod.fst).Nodup) :
    (MergeSessions.aggregate_summaries summaries).total_duration_seconds =
      (summaries.map (fun s => (MergeSessions.sdOf s).total_duration_seconds.getD 0)).sum ∧
    (MergeSessions.aggregate_summaries summaries).total_messages =
      (summaries.map (fun s => (MergeSessions.sdOf s).total_messages.getD 0)).sum ∧
    (MergeSessions.aggregate_summaries summaries).assistant_messages =
      (summaries.map (fun s => (MergeSessions.sdOf s).assistant_messages.getD 0)).sum ∧
    (MergeSessions.aggregate_summaries summaries).user_prompts =
      (summaries.map (fun s => (MergeSessions.sdOf s).user_prompts.getD 0)).sum ∧
    (MergeSessions.aggregate_summaries summaries).user_metrics.user_prompts =
      (summaries.map (fun s => (MergeSessions.umOf s).user_prompts.getD 0)).sum ∧
    (MergeSessions.aggregate_summaries summaries).user_metrics.tool_results =
      (summaries.map (fun s => (MergeSessions.umOf s).tool_results.getD 0)).sum ∧
    (MergeSessions.aggregate_summaries summaries).user_metrics.system_messages =
      (summaries.map (fun s => (MergeSessions.umOf s).system_messages.getD 0)).sum ∧
    (MergeSessions.aggregate_summaries summaries).user_metrics.total_user_events =
      (summaries.map (fun s => (MergeSessions.umOf s).total_user_events.getD 0)).sum ∧
    (MergeSessions.aggregate_summaries summaries).usage_totals.total_input_tokens =
      (summaries.map (fun s => (MergeSessions.utOf s).total_input_tokens.getD 0)).sum ∧
    (MergeSessions.aggregate_summaries summaries).usage_totals.total_output_tokens =
      (summaries.map (fun s => (MergeSessions.utOf s).total_output_tokens.getD 0)).sum ∧
    (MergeSessions.aggregate_summaries summaries).usage_totals.total_cache_creation_tokens =
      (summaries.map (fun s => (MergeSessions.utOf s).total_cache_creation_tokens.getD 0)).sum ∧
    (MergeSessions.aggregate_summaries summaries).usage_totals.total_cache_read_tokens =
      (summaries.map (fun s => (MergeSessions.utOf s).total_cache_read_tokens.getD 0)).sum ∧
    (MergeSessions.aggregate_summaries summaries).usage_totals.total_ephemeral_5m_tokens =
      (summaries.map (fun s => (MergeSessions.utOf s).total_ephemeral_5m_tokens.getD 0)).sum ∧
    (MergeSessions.aggregate_summaries summaries).usage_totals.total_ephemeral_1h_tokens =
      (summaries.map (fun s => (MergeSessions.utOf s).total_ephemeral_1h_tokens.getD 0)).sum ∧
    (MergeSessions.aggregate_summaries summaries).usage_totals.total_actual_input_tokens =
      (summaries.map (fun s => (MergeSessions.utOf s).total_actual_input_tokens.getD 0)).sum ∧
    (MergeSessions.aggregate_summaries summaries).tool_metrics.total_tool_calls =
      (summaries.map (fun s => (MergeSessions.tmOf s).total_tool_calls.getD 0)).sum ∧
    (MergeSessions.aggregate_summaries summaries).tool_metrics.total_tool_results =
      (summaries.map (fun s => (MergeSessions.tmOf s).total_tool_results.getD 0)).sum ∧
    (MergeSessions.aggregate_summaries summaries).thinking_metrics.thinking_enabled_turns =
      (summaries.map (fun s => (MergeSessions.thmOf s).thinking_enabled_turns.getD 0)).sum ∧
    (MergeSessions.aggregate_summaries summaries).thinking_metrics.thinking_disabled_turns =
      (summaries.map (fun s => (MergeSessions.thmOf s).thinking_disabled_turns.getD 0)).sum ∧
    (MergeSessions.aggregate_summaries summaries).thinking_metrics.assistant_with_thinking_blocks =
      (summaries.map
        (fun s => (MergeSessions.thmOf s).assistant_with_thinking_blocks.getD 0)).sum ∧
    (MergeSessions.aggregate_summaries
        summaries).thinking_metrics.assistant_thinking_blocks_captured =
      (summaries.map
        (fun s => (MergeSessions.thmOf s).assistant_thinking_blocks_captured.getD 0)).sum ∧
    (∀ k : String, (MergeSessions.aggregate_summaries summaries).tool_metrics.tool_calls_by_type k =
      (summaries.map
        (fun s => (List.lookup k (MergeSessions.tmOf s).tool_calls_by_type).getD 0)).sum) ∧
    (∀ k : String, (MergeSessions.aggregate_summaries summaries).thinking_metrics.thinking_levels k =
      (summaries.map
        (fun s => (List.lookup k (MergeSessions.thmOf s).thinking_levels).getD 0)).sum) ∧
    (MergeSessions.aggregate_summaries summaries).git_metrics.files_changed_count =
      MergeSessions.list_max
        (summaries.map (fun s => (MergeSessions.gmOf s).files_changed_count.getD 0)) ∧
    (MergeSessions.aggregate_summaries summaries).git_metrics.lines_of_code_changed_count =
      MergeSessions.list_max
        (summaries.map (fun s => (MergeSessions.gmOf s).lines_of_code_changed_count.getD 0)) := by
  refine ⟨?_, ?_, ?_, ?_, ?_, ?_, ?_, ?_, ?_, ?_, ?_, ?_, ?_, ?_, ?_, ?_, ?_, ?_, ?_, ?_, ?_,
    ?_, ?_, ?_, ?_⟩
  · simpa [MergeSessions.aggregate_summaries, MergeSessions.initTotals] using
      MergeSessions.foldl_step_add (fun t => t.total_duration_seconds)
        (fun s => (MergeSessions.sdOf s).total_duration_seconds.getD 0) summaries
        MergeSessions.initTotals (fun t s _ => rfl)
  · simpa [MergeSessions.aggregate_summaries, MergeSessions.initTotals] using
      MergeSessions.foldl_step_add (fun t => t.total_messages)
        (fun s => (MergeSessions.sdOf s).total_messages.getD 0) summaries
        MergeSessions.initTotals (fun t s _ => rfl)
  · simpa [MergeSessions.aggregate_summaries, MergeSessions.initTotals] using
      MergeSessions.foldl_step_add (fun t => t.assistant_messages)
        (fun s => (MergeSessions.sdOf s).assistant_messages.getD 0) summaries
        MergeSessions.initTotals (fun t s _ => rfl)
  · simpa [MergeSessions.aggregate_summaries, MergeSessions.initTotals] using
      MergeSessions.foldl_step_add (fun t => t.user_prompts)
        (fun s => (MergeSessions.sdOf s).user_prompts.getD 0) summaries
        MergeSessions.initTotals (fun t s _ => rfl)
  · simpa [MergeSessions.aggregate_summaries, MergeSessions.initTotals] using
      MergeSessions.foldl_step_add (fun t => t.user_metrics.user_prompts)
        (fun s => (MergeSessions.umOf s).user_prompts.getD 0) summaries
        MergeSessions.initTotals (fun t s _ => rfl)
  · simpa [MergeSessions.aggregate_summaries, MergeSessions.initTotals] using
      MergeSessions.foldl_step_add (fun t => t.user_metrics.tool_results)
        (fun s => (MergeSessions.umOf s).tool_results.getD 0) summaries
        MergeSessions.initTotals (fun t s _ => rfl)
  · simpa [MergeSessions.aggregate_summaries, MergeSessions.initTotals] using
      MergeSessions.foldl_step_add (fun t => t.user_metrics.system_messages)
        (fun s => (MergeSessions.umOf s).system_messages.getD 0) summaries
        MergeSessions.initTotals (fun t s _ => rfl)
  · simpa [MergeSessions.aggregate_summaries, MergeSessions.initTotals] using
      MergeSessions.foldl_step_add (fun t => t.user_metrics.total_user_events)
        (fun s => (MergeSessions.umOf s).total_user_events.getD 0) summaries
        MergeSessions.initTotals (fun t s _ => rfl)
  · simpa [MergeSessions.aggregate_summaries, MergeSessions.initTotals] using
      MergeSessions.foldl_step_add (fun t => t.usage_totals.total_input_tokens)
        (fun s => (MergeSessions.utOf s).total_input_tokens.getD 0) summaries
        MergeSessions.initTotals (fun t s _ => rfl)
  · simpa [MergeSessions.aggregate_summaries, MergeSessions.initTotals] using
      MergeSessions.foldl_step_add (fun t => t.usage_totals.total_output_tokens)
        (fun s => (MergeSessions.utOf s).total_output_tokens.getD 0) summaries
        MergeSessions.initTotals (fun t s _ => rfl)
  · simpa [MergeSessions.aggregate_summaries, MergeSessions.initTotals] using
      MergeSessions.foldl_step_add (fun t => t.usage_totals.total_cache_creation_tokens)
        (fun s => (MergeSessions.utOf s).total_cache_creation_tokens.getD 0) summaries
        MergeSessions.initTotals (fun t s _ => rfl)
  · simpa [MergeSessions.aggregate_summaries, MergeSessions.initTotals] using
      MergeSessions.foldl_step_add (fun t => t.usage_totals.total_cache_read_tokens)
        (fun s => (MergeSessions.utOf s).total_cache_read_tokens.getD 0) summaries
        MergeSessions.initTotals (fun t s _ => rfl)
  · simpa [MergeSessions.aggregate_summaries, MergeSessions.initTotals] using
      MergeSessions.foldl_step_add (fun t => t.usage_totals.total_ephemeral_5m_tokens)
        (fun s => (MergeSessions.utOf s).total_ephemeral_5m_tokens.getD 0) summaries
        MergeSessions.initTotals (fun t s _ => rfl)
  · simpa [MergeSessions.aggregate_summaries, MergeSessions.initTotals] using
      MergeSessions.foldl_step_add (fun t => t.usage_totals.total_ephemeral_1h_tokens)
        (fun s => (MergeSessions.utOf s).total_ephemeral_1h_tokens.getD 0) summaries
        MergeSessions.initTotals (fun t s _ => rfl)
  · simpa [MergeSessions.aggregate_summaries, MergeSessions.initTotals] using
      MergeSessions.foldl_step_add (fun t => t.usage_totals.total_actual_input_tokens)
        (fun s => (MergeSessions.utOf s).total_actual_input_tokens.getD 0) summaries
        MergeSessions.initTotals (fun t s _ => rfl)
  · simpa [MergeSessions.aggregate_summaries, MergeSessions.initTotals] using
      MergeSessions.foldl_step_add (fun t => t.tool_metrics.total_tool_calls)
        (fun s => (MergeSessions.tmOf s).total_tool_calls.getD 0) summaries
        MergeSessions.initTotals (fun t s _ => rfl)
  · simpa [MergeSessions.aggregate_summaries, MergeSessions.initTotals] using
      MergeSessions.foldl_step_add (fun t => t.tool_metrics.total_tool_results)
        (fun s => (MergeSessions.tmOf s).total_tool_results.getD 0) summaries
        MergeSessions.initTotals (fun t s _ => rfl)
  · simpa [MergeSessions.aggregate_summaries, MergeSessions.initTotals] using
      MergeSessions.foldl_step_add (fun t => t.thinking_metrics.thinking_enabled_turns)
        (fun s => (MergeSessions.thmOf s).thinking_enabled_turns.getD 0) summaries
        MergeSessions.initTotals (fun t s _ => rfl)
  · simpa [MergeSessions.aggregate_summaries, MergeSessions.initTotals] using
      MergeSessions.foldl_step_add (fun t => t.thinking_metrics.thinking_disabled_turns)
        (fun s => (MergeSessions.thmOf s).thinking_disabled_turns.getD 0) summaries
        MergeSessions.initTotals (fun t s _ => rfl)
  · simpa [MergeSessions.aggregate_summaries, MergeSessions.initTotals] using
      MergeSessions.foldl_step_add (fun t => t.thinking_metrics.assistant_with_thinking_blocks)
        (fun s => (MergeSessions.thmOf s).assistant_with_thinking_blocks.getD 0) summaries
        MergeSessions.initTotals (fun t s _ => rfl)
  · simpa [MergeSessions.aggregate_summaries, MergeSessions.initTotals] using
      MergeSessions.foldl_step_add
        (fun t => t.thinking_metrics.assistant_thinking_blocks_captured)
        (fun s => (MergeSessions.thmOf s).assistant_thinking_blocks_captured.getD 0) summaries
        MergeSessions.initTotals (fun t s _ => rfl)
  · intro k
    simpa [MergeSessions.aggregate_summaries, MergeSessions.initTotals] using
      MergeSessions.foldl_step_add (fun t => t.tool_metrics.tool_calls_by_type k)
        (fun s => (List.lookup k (MergeSessions.tmOf s).tool_calls_by_type).getD 0) summaries
        MergeSessions.initTotals
        (fun t s hs => MergeSessions.add_entries_apply k
          (MergeSessions.tmOf s).tool_calls_by_type t.tool_metrics.tool_calls_by_type (htm s hs))
  · intro k
    simpa [MergeSessions.aggregate_summaries, MergeSessions.initTotals] using
      MergeSessions.foldl_step_add (fun t => t.thinking_metrics.thinking_levels k)
        (fun s => (List.lookup k (MergeSessions.thmOf s).thinking_levels).getD 0) summaries
        MergeSessions.initTotals
        (fun t s hs => MergeSessions.add_entries_apply k
          (MergeSessions.thmOf s).thinking_levels t.thinking_metrics.thinking_levels (hthm s hs))
  · simpa [MergeSessions.aggregate_summaries, MergeSessions.initTotals,
      MergeSessions.list_max] using
      MergeSessions.foldl_step_max (fun t => t.git_metrics.files_changed_count)
        (fun s => (MergeSessions.gmOf s).files_changed_count.getD 0) summaries
        MergeSessions.initTotals (fun t s _ => rfl)
  · simpa [MergeSessions.aggregate_summaries, MergeSessions.initTotals,
      MergeSessions.list_max] using
      MergeSessions.foldl_step_max (fun t => t.git_metrics.lines_of_code_changed_count)
        (fun s => (MergeSessions.gmOf s).lines_of_code_changed_count.getD 0) summaries
        MergeSessions.initTotals (fun t s _ => rfl)

/-- Witness for C3 on the spec's example: token counts `[10, 20, 5]`
aggregate to `35`, files-changed counts `[3, 7, 2]` aggregate to the
maximum `7` (not `12`), and tool-call counts for a shared key sum. -/
theorem c3_aggregate_summaries_sums_and_maxes_witness :
    (∀ s ∈ ([⟨some ⟨none, none, none, none, none,
                some ⟨some 10, none, none, none, none, none, none, none⟩,
                some ⟨[("Bash", 2), ("Read", 1)], none, none⟩, none, some ⟨some 3, none⟩⟩⟩,
             ⟨some ⟨none, none, none, none, none,
                some ⟨some 20, none, none, none, none, none, none, none⟩,
                some ⟨[("Bash", 3)], none, none⟩, none, some ⟨some 7, none⟩⟩⟩,
             ⟨some ⟨none, none, none, none, none,
                some ⟨some 5, none, none, none, none, none, none, none⟩,
                some ⟨[], none, none⟩, none, some ⟨some 2, none⟩⟩⟩] :
            List MergeSessions.Summary),
      ((MergeSessions.tmOf s).tool_calls_by_type.map Prod.fst).Nodup) ∧
    (∀ s ∈ ([⟨some ⟨none, none, none, none, none,
                some ⟨some 10, none, none, none, none, none, none, none⟩,
                some ⟨[("Bash", 2), ("Read", 1)], none, none⟩, none, some ⟨some 3, none⟩⟩⟩,
             ⟨some ⟨none, none, none, none, none,
                some ⟨some 20, none, none, none, none, none, none, none⟩,
                some ⟨[("Bash", 3)], none, none⟩, none, some ⟨some 7, none⟩⟩⟩,
             ⟨some ⟨none, none, none, none, none,
                some ⟨some 5, none, none, none, none, none, none, none⟩,
                some ⟨[], none, none⟩, none, some ⟨some 2, none⟩⟩⟩] :
            List MergeSessions.Summary),
      ((MergeSessions.thmOf s).thinking_levels.map Prod.fst).Nodup) ∧
    (MergeSessions.aggregate_summaries
        [⟨some ⟨none, none, none, none, none,
            some ⟨some 10, none, none, none, none, none, none, none⟩,
            some ⟨[("Bash", 2), ("Read", 1)], none, none⟩, none, some ⟨some 3, none⟩⟩⟩,
         ⟨some ⟨none, none, none, none, none,
            some ⟨some 20, none, none, none, none, none, none, none⟩,
            some ⟨[("Bash", 3)], none, none⟩, none, some ⟨some 7, none⟩⟩⟩,
         ⟨some ⟨none, none, none, none, none,
            some ⟨some 5, none, none, none, none, none, none, none⟩,
            some ⟨[], none, none⟩, none, some ⟨some 2, none⟩⟩⟩]).usage_totals.total_input_tokens
      = 35 ∧
    (MergeSessions.aggregate_summaries
        [⟨some ⟨none, none, none, none, none,
            some ⟨some 10, none, none, none, none, none, none, none⟩,
            some ⟨[("Bash", 2), ("Read", 1)], none, none⟩, none, some ⟨some 3, none⟩⟩⟩,
         ⟨some ⟨none, none, none, none, none,
            some ⟨some 20, none, none, none, none, none, none, none⟩,
            some ⟨[("Bash", 3)], none, none⟩, none, some ⟨some 7, none⟩⟩⟩,
         ⟨some ⟨none, none, none, none, none,
            some ⟨some 5, none, none, none, none, none, none, none⟩,
            some ⟨[], none, none⟩, none, some ⟨some 2, none⟩⟩⟩]).git_metrics.files_changed_count
      = 7 ∧
    (MergeSessions.aggregate_summaries
        [⟨some ⟨none, none, none, none, none,
            some ⟨some 10, none, none, none, none, none, none, none⟩,
            some ⟨[("Bash", 2), ("Read", 1)], none, none⟩, none, some ⟨some 3, none⟩⟩⟩,
         ⟨some ⟨none, none, none, none, none,
            some ⟨some 20, none, none, none, none, none, none, none⟩,
            some ⟨[("Bash", 3)], none, none⟩, none, some ⟨some 7, none⟩⟩⟩,
         ⟨some ⟨none, none, none, none, none,
            some ⟨some 5, none, none, none, none, none, none, none⟩,
            some ⟨[], none, none⟩, none,
            some ⟨some 2, none⟩⟩⟩]).tool_metrics.tool_calls_by_type "Bash"
      = 5 :=
  ⟨by decide, by decide,
   (c3_aggregate_summaries_sums_and_maxes
      [⟨some ⟨none, none, none, none, none,
          some ⟨some 10, none, none, none, none, none, none, none⟩,
          some ⟨[("Bash", 2), ("Read", 1)], none, none⟩, none, some ⟨some 3, none⟩⟩⟩,
       ⟨some ⟨none, none, none, none, none,
          some ⟨some 20, none, none, none, none, none, none, none⟩,
          some ⟨[("Bash", 3)], none, none⟩, none, some ⟨some 7, none⟩⟩⟩,
       ⟨some ⟨none, none, none, none, none,
          some ⟨some 5, none, none, none, none, none, none, none⟩,
          some ⟨[], none, none⟩, none, some ⟨some 2, none⟩⟩⟩]
      (by decide) (by decide)).2.2.2.2.2.2.2.2.1.trans (by decide),
   (c3_aggregate_summaries_sums_and_maxes
      [⟨some ⟨none, none, none, none, none,
          some ⟨some 10, none, none, none, none, none, none, none⟩,
          some ⟨[("Bash", 2), ("Read", 1)], none, none⟩, none, some ⟨some 3, none⟩⟩⟩,
       ⟨some ⟨none, none, none, none, none,
          some ⟨some 20, none, none, none, none, none, none, none⟩,
          some ⟨[("Bash", 3)], none, none⟩, none, some ⟨some 7, none⟩⟩⟩,
       ⟨some ⟨none, none, none, none, none,
          some ⟨some 5, none, none, none, none, none, none, none⟩,
          some ⟨[], none, none⟩, none, some ⟨some 2, none⟩⟩⟩]
      (by decide)
      (by decide)).2.2.2.2.2.2.2.2.2.2.2.2.2.2.2.2.2.2.2.2.2.2.2.1.trans (by decide),
   ((c3_aggregate_summaries_sums_and_maxes
      [⟨some ⟨none, none, none, none, none,
          some ⟨some 10, none, none, none, none, none, none, none⟩,
          some ⟨[("Bash", 2), ("Read", 1)], none, none⟩, none, some ⟨some 3, none⟩⟩⟩,
       ⟨some ⟨none, none, none, none, none,
          some ⟨some 20, none, none, none, none, none, none, none⟩,
          some ⟨[("Bash", 3)], none, none⟩, none, some ⟨some 7, none⟩⟩⟩,
       ⟨some ⟨none, none, none, none, none,
          some ⟨some 5, none, none, none, none, none, none, none⟩,
          some ⟨[], none, none⟩, none, some ⟨some 2, none⟩⟩⟩]
      (by decide)
      (by decide)).2.2.2.2.2.2.2.2.2.2.2.2.2.2.2.2.2.2.2.2.2.1 "Bash").trans (by decide)⟩
